import Mathlib

/-!
Shallow embedding of the deterministic diagram auto-layout engine and its
connection resolver (src/engine/layout.js, src/engine/layout-templates.js,
src/unnamed/part_001) in Lean 4, over exact rational arithmetic.

Modelling conventions:
* JavaScript numbers are modelled as rationals; all arithmetic in the
  embedded code paths is exact except the trigonometric calls of the hub
  profile, which are abstracted by an explicit oracle structure.
* JS division is modelled by jsDiv (which equals ordinary rational division,
  with division by zero yielding 0 rather than Infinity; the embedded code
  only divides by guarded-positive quantities except a hub-profile corner
  noted at TrigOracle).
* Math.round is jsRound, the floor of x + 1/2, matching round-half-up.
* Absent object fields are Option; JS truthiness on strings and numbers is
  modelled by the truthy helpers (0 and the empty string are falsy).
* JS Map insertion semantics are modelled on association lists: set keeps
  the first position of an existing key and overwrites its value;
  constructor-style bulk insertion makes the last duplicate win.
* Array.prototype.sort with a numeric comparator is a stable sort; it is
  modelled by a structural stable insertion sort.
-/

set_option maxRecDepth 20000
set_option maxHeartbeats 2000000

namespace Animator

/-- JS division on exact rationals (Rat.div, definitionally equal to /). -/
def jsDiv (a b : ℚ) : ℚ := Rat.div a b

/-- JS Math.round: floor of x + 1/2 (round half toward positive infinity). -/
def jsRound (q : ℚ) : ℚ := ((q + jsDiv 1 2).floor : ℤ)

theorem jsDiv_eq (a b : ℚ) : jsDiv a b = a / b := rfl

theorem jsRound_eq (q : ℚ) : jsRound q = (⌊q + 1 / 2⌋ : ℤ) := rfl

/-- JS truthiness for an optional number: undefined and 0 are falsy. -/
def truthyQ (o : Option ℚ) : Option ℚ :=
  o.bind fun v => if v = 0 then none else some v

/-- JS truthiness for an optional string: undefined and the empty string are falsy. -/
def truthyS (o : Option String) : Option String :=
  o.bind fun s => if s = "" then none else some s

/-- JS a || b for optional numbers: b is used when a is undefined or 0. -/
def orQ (a : Option ℚ) (b : ℚ) : ℚ := (truthyQ a).getD b

/-- JS a || b for optional strings: b is used when a is undefined or empty. -/
def orS (a : Option String) (b : String) : String := (truthyS a).getD b

/-- Lookup in a JS Map built by repeated set calls: the last write wins. -/
def jsMapGet {β : Type} (l : List (String × β)) (k : String) : Option β :=
  (l.reverse.find? fun p => p.1 = k).map (·.2)

/-- JS Map.set on an association list: existing keys keep their position and
get the new value, new keys are appended (insertion order preserved). -/
def jsMapSet {β : Type} (l : List (String × β)) (k : String) (v : β) :
    List (String × β) :=
  if l.any fun p => p.1 = k then
    l.map fun p => if p.1 = k then (k, v) else p
  else l ++ [(k, v)]

/-- First-match lookup for association lists whose keys are unique
(built via jsMapSet), mirroring Map.get. -/
def jsMapFind {β : Type} (l : List (String × β)) (k : String) : Option β :=
  (l.find? fun p => p.1 = k).map (·.2)

/-- Whether a JS Map built via jsMapSet has a key. -/
def jsMapHas {β : Type} (l : List (String × β)) (k : String) : Bool :=
  l.any fun p => p.1 = k

/-- Stable insertion into a list sorted by the boolean comparator le:
the new element goes after every existing element that is not strictly
greater, which is exactly the stability contract of Array.prototype.sort. -/
def insertStable {α : Type} (le : α → α → Bool) (x : α) : List α → List α
  | [] => [x]
  | y :: ys => if le x y && !(le y x) then x :: y :: ys else y :: insertStable le x ys

/-- Stable sort by a boolean comparator (models Array.prototype.sort with a
numeric comparator, which is stable). -/
def stableSort {α : Type} (le : α → α → Bool) (l : List α) : List α :=
  l.foldl (fun acc x => insertStable le x acc) []

/-- Fold maximum of a list of rationals, starting from an initial value
(models let m = init; for (x of l) m = Math.max(m, x)). -/
def foldMax (init : ℚ) (l : List ℚ) : ℚ := l.foldl max init

-- =====================================================
-- Data model (components, zones, connections, scenarios)
-- =====================================================

/-- A size field value: either a scalar number or a two-element array. -/
inductive SizeVal where
  | scalar (v : ℚ)
  | pair (w h : ℚ)
deriving DecidableEq, Repr

/-- A diagram component as consumed by the layout engine and resolver.
Absent JS fields are none. The position field models the two-element
array form used throughout the repository. -/
structure Component where
  id : String := ""
  type : Option String := none
  size : Option SizeVal := none
  width : Option ℚ := none
  height : Option ℚ := none
  radius : Option ℚ := none
  zone : Option String := none
  x : Option ℚ := none
  y : Option ℚ := none
  position : Option (ℚ × ℚ) := none
  color : Option String := none
deriving DecidableEq, Repr

/-- A zone (grouping rectangle). Geometry fields are optional on input and
always set on layout output. -/
structure Zone where
  id : String := ""
  label : Option String := none
  color : Option String := none
  x : Option ℚ := none
  y : Option ℚ := none
  width : Option ℚ := none
  height : Option ℚ := none
deriving DecidableEq, Repr

/-- A connection endpoint: a component/zone id string, or an explicit point. -/
inductive ConnEnd where
  | cid (s : String)
  | cpt (x y : ℚ)
deriving DecidableEq, Repr

/-- A connection; styling fields are irrelevant to geometry and omitted. -/
structure Connection where
  id : Option String := none
  from_ : ConnEnd
  to_ : ConnEnd
deriving DecidableEq, Repr

/-- A scenario graph description (the layout-relevant fields). -/
structure Scenario where
  components : List Component := []
  zones : List Zone := []
  connections : List Connection := []
  flow : Option (List String) := none
deriving DecidableEq, Repr

/-- An axis-aligned rectangle (x, y are the top-left corner). -/
structure Rect where
  x : ℚ
  y : ℚ
  width : ℚ
  height : ℚ
deriving DecidableEq, Repr

/-- A 2D point. -/
structure Point where
  x : ℚ
  y : ℚ
deriving DecidableEq, Repr

/-- A layout quality score: overlap count, crossing count, weighted total. -/
structure Score where
  overlaps : ℕ
  crossings : ℕ
  total : ℕ
deriving DecidableEq, Repr

end Animator

namespace Animator

-- =====================================================
-- Connection resolver (src/unnamed/part_001)
-- =====================================================

namespace Resolver

/-- One row of the resolver DEFAULT_DIMENSIONS table. -/
structure DimRec where
  width : Option ℚ := none
  height : Option ℚ := none
  size : Option ℚ := none
  radius : Option ℚ := none
deriving DecidableEq, Repr

/-- DEFAULT_DIMENSIONS of the connection resolver. -/
def DEFAULT_DIMENSIONS (t : String) : Option DimRec :=
  if t = "rectangle" then some { width := some 120, height := some 60 }
  else if t = "circle" then some { radius := some 35 }
  else if t = "diamond" then some { size := some 60 }
  else if t = "hexagon" then some { size := some 40 }
  else if t = "cylinder" then some { width := some 80, height := some 100 }
  else if t = "cloud" then some { width := some 120, height := some 70 }
  else if t = "server" then some { width := some 60, height := some 80 }
  else if t = "database" then some { width := some 60, height := some 80 }
  else if t = "user" then some { width := some 56, height := some 80 }
  else if t = "gear" then some { size := some 30 }
  else if t = "container" then some { width := some 200, height := some 150 }
  else if t = "zone" then some { width := some 300, height := some 200 }
  else none

/-- Bounding box with precomputed center, as returned by getComponentBounds. -/
structure Bounds where
  x : ℚ
  y : ℚ
  width : ℚ
  height : ℚ
  centerX : ℚ
  centerY : ℚ
deriving DecidableEq, Repr

/-- The center-anchored type list of the connection resolver
(note: server is absent here). -/
def centeredTypes : List String :=
  ["circle", "diamond", "hexagon", "user", "database", "gear"]

/-- getComponentBounds of the connection resolver: derives a bounding box
from stored position, explicit size fields and per-type defaults, and
shifts center-anchored types by half their size. -/
def getComponentBounds (c : Component) : Bounds :=
  let t := orS c.type "rectangle"
  let defaults := (DEFAULT_DIMENSIONS t).getD
    { width := some 120, height := some 60 }
  let pos : ℚ × ℚ :=
    match c.position with
    | some (px, py) => (px, py)
    | none => (orQ c.x 0, orQ c.y 0)
  let sz : ℚ × ℚ :=
    match c.size with
    | some (.pair w h) => (w, h)
    | some (.scalar v) => (v * 2, v * 2)
    | none =>
      let w := orQ c.width (orQ defaults.width
        (match truthyQ defaults.size with
         | some s => s * 2
         | none => 60))
      let h := orQ c.height (orQ defaults.height
        (match truthyQ defaults.size with
         | some s => s * 2
         | none => 60))
      if t = "circle" ∧ (truthyQ c.radius).isSome then
        match truthyQ c.radius with
        | some r => (r * 2, r * 2)
        | none => (w, h)
      else (w, h)
  let adjusted : ℚ × ℚ :=
    if t ∈ centeredTypes then
      (pos.1 - jsDiv sz.1 2, pos.2 - jsDiv sz.2 2)
    else pos
  { x := adjusted.1, y := adjusted.2, width := sz.1, height := sz.2,
    centerX := adjusted.1 + jsDiv sz.1 2, centerY := adjusted.2 + jsDiv sz.2 2 }

/-- The ConnectionPoint enumeration. -/
inductive CPoint where
  | top | bottom | left | right | center
deriving DecidableEq, Repr

/-- getConnectionPoint: a specific anchor point on a bounding box. -/
def getConnectionPoint (b : Bounds) (p : CPoint) : Point :=
  match p with
  | .top => { x := b.centerX, y := b.y }
  | .bottom => { x := b.centerX, y := b.y + b.height }
  | .left => { x := b.x, y := b.centerY }
  | .right => { x := b.x + b.width, y := b.centerY }
  | .center => { x := b.centerX, y := b.centerY }

/-- calculateOptimalConnectionPoints: chooses opposite sides on the
dominant axis between two bounding boxes. -/
def calculateOptimalConnectionPoints (fromBounds toBounds : Bounds) :
    Point × Point :=
  let dx := toBounds.centerX - fromBounds.centerX
  let dy := toBounds.centerY - fromBounds.centerY
  let pts : CPoint × CPoint :=
    if |dx| > |dy| then
      if dx > 0 then (.right, .left) else (.left, .right)
    else
      if dy > 0 then (.bottom, .top) else (.top, .bottom)
  (getConnectionPoint fromBounds pts.1, getConnectionPoint toBounds pts.2)

/-- registerComponents: components with a truthy id enter the map
(Map.set semantics, last duplicate wins by overwrite in place). -/
def registerComponents (components : List Component) :
    List (String × Component) :=
  components.foldl
    (fun m c => if c.id = "" then m else jsMapSet m c.id c) []

/-- registerZones, analogously. -/
def registerZones (zones : List Zone) : List (String × Zone) :=
  zones.foldl
    (fun m z => if z.id = "" then m else jsMapSet m z.id z) []

/-- A zone viewed as the object getComponentBounds receives when the
resolver looks an id up in the zone map: same x/y/width/height fields,
no type, size, radius or position fields. -/
def zoneAsComponent (z : Zone) : Component :=
  { id := z.id, width := z.width, height := z.height, x := z.x, y := z.y,
    color := z.color }

/-- getComponent: the component map takes precedence over the zone map. -/
def getComponent (cm : List (String × Component)) (zm : List (String × Zone))
    (id : String) : Option Component :=
  (jsMapFind cm id) <|> ((jsMapFind zm id).map zoneAsComponent)

/-- resolveConnection: resolves id endpoints to concrete points, leaving
unresolvable ids in place and emitting a warning for each; never throws
(the function is total). Returns the resolved connection and the warnings
emitted. -/
def resolveConnection (cm : List (String × Component))
    (zm : List (String × Zone)) (conn : Connection) :
    Connection × List String :=
  let step1 : Connection × List String :=
    match conn.from_ with
    | .cid s =>
      match getComponent cm zm s with
      | some fromComp =>
        let fromBounds := getComponentBounds fromComp
        let toValue : Option Bounds :=
          match conn.to_ with
          | .cid t => (getComponent cm zm t).map getComponentBounds
          | .cpt px py =>
            some { centerX := px, centerY := py, x := px, y := py,
                   width := 0, height := 0 }
        match toValue with
        | some toBounds =>
          let points := calculateOptimalConnectionPoints fromBounds toBounds
          ({ conn with from_ := .cpt points.1.x points.1.y,
                       to_ := .cpt points.2.x points.2.y }, [])
        | none =>
          ({ conn with
             from_ := .cpt fromBounds.centerX fromBounds.centerY }, [])
      | none =>
        (conn, ["Could not resolve connection from: " ++ s])
    | .cpt _ _ => (conn, [])
  let resolved := step1.1
  match resolved.to_ with
  | .cid t =>
    match getComponent cm zm t with
    | some toComp =>
      let toBounds := getComponentBounds toComp
      ({ resolved with to_ := .cpt toBounds.centerX toBounds.centerY },
       step1.2)
    | none =>
      (resolved, step1.2 ++ ["Could not resolve connection to: " ++ t])
  | .cpt _ _ => (resolved, step1.2)

end Resolver

end Animator

namespace Animator

-- =====================================================
-- Layout engine (src/engine/layout.js, layout-templates.js)
-- =====================================================

namespace Layout

/-- One row of the layout engine DEFAULT_DIMENSIONS table. -/
structure DimRec where
  width : Option ℚ := none
  height : Option ℚ := none
  size : Option ℚ := none
  radius : Option ℚ := none
deriving DecidableEq, Repr

/-- DEFAULT_DIMENSIONS of the layout engine (every row carries explicit
width and height, some also a radius or size scalar). -/
def DEFAULT_DIMENSIONS (t : String) : Option DimRec :=
  if t = "rectangle" then some { width := some 120, height := some 60 }
  else if t = "circle" then
    some { radius := some 35, width := some 70, height := some 70 }
  else if t = "diamond" then
    some { size := some 60, width := some 120, height := some 120 }
  else if t = "hexagon" then
    some { size := some 40, width := some 80, height := some 80 }
  else if t = "cylinder" then some { width := some 80, height := some 100 }
  else if t = "cloud" then some { width := some 120, height := some 70 }
  else if t = "server" then some { width := some 60, height := some 80 }
  else if t = "database" then some { width := some 60, height := some 80 }
  else if t = "user" then some { width := some 56, height := some 80 }
  else if t = "gear" then
    some { size := some 30, width := some 60, height := some 60 }
  else if t = "container" then some { width := some 200, height := some 150 }
  else none

/-- CENTERED_TYPES of the layout engine
(note: server is present here, unlike the resolver list). -/
def CENTERED_TYPES : List String :=
  ["circle", "diamond", "hexagon", "user", "database", "gear", "server"]

/-- TYPE_COLORS table. -/
def TYPE_COLORS (t : String) : Option String :=
  if t = "user" then some "#6366f1"
  else if t = "rectangle" then some "#6366f1"
  else if t = "circle" then some "#10b981"
  else if t = "diamond" then some "#f59e0b"
  else if t = "hexagon" then some "#8b5cf6"
  else if t = "cylinder" then some "#ef4444"
  else if t = "cloud" then some "#f59e0b"
  else if t = "server" then some "#10b981"
  else if t = "database" then some "#ef4444"
  else if t = "gear" then some "#f59e0b"
  else if t = "container" then some "#14b8a6"
  else none

/-- ZONE_COLORS palette. -/
def ZONE_COLORS : List String :=
  ["#6366f1", "#10b981", "#f59e0b", "#ef4444", "#8b5cf6", "#14b8a6"]

/-- ZONE_COLORS[i % ZONE_COLORS.length]. -/
def zoneColorAt (i : ℕ) : String :=
  (ZONE_COLORS.get? (i % ZONE_COLORS.length)).getD ""

/-- getDefaultSize: type defaults with the size-doubling fallback. -/
def getDefaultSize (t : String) : ℚ × ℚ :=
  let dims := (DEFAULT_DIMENSIONS t).getD
    { width := some 120, height := some 60 }
  (orQ dims.width (match truthyQ dims.size with
    | some s => s * 2
    | none => 60),
   orQ dims.height (match truthyQ dims.size with
    | some s => s * 2
    | none => 60))

/-- getComponentSizeForComponent: explicit size array, scalar size (doubled
only for hexagon, diamond, gear), width/height overrides, circle radius
override, falling back to type defaults. -/
def getComponentSizeForComponent (c : Component) : ℚ × ℚ :=
  let t := orS c.type "rectangle"
  let defaults := getDefaultSize t
  let wh : ℚ × ℚ :=
    match c.size with
    | some (.pair w h) => (w, h)
    | some (.scalar v) =>
      if t = "hexagon" ∨ t = "diamond" ∨ t = "gear" then (v * 2, v * 2)
      else (v, v)
    | none => (0, 0)
  let w1 := if wh.1 = 0 then orQ c.width defaults.1 else wh.1
  let h1 := if wh.2 = 0 then orQ c.height defaults.2 else wh.2
  if t = "circle" ∧ (truthyQ c.radius).isSome then
    match truthyQ c.radius with
    | some r => (r * 2, r * 2)
    | none => (w1, h1)
  else (w1, h1)

/-- centerToAnchor: converts an internal center coordinate into the anchor
coordinate the renderer expects for the component type. -/
def centerToAnchor (centerX centerY : ℚ) (c : Component) : ℚ × ℚ :=
  let t := orS c.type "rectangle"
  let size := getComponentSizeForComponent c
  if t ∈ CENTERED_TYPES then (centerX, centerY)
  else (centerX - jsDiv size.1 2, centerY - jsDiv size.2 2)

/-- getBoundsFromAnchor: bounding box of a component from its stored anchor
coordinates, per the layout engine anchor semantics. -/
def getBoundsFromAnchor (c : Component) : Rect :=
  let size := getComponentSizeForComponent c
  let t := orS c.type "rectangle"
  let anchorX := c.x.getD 0
  let anchorY := c.y.getD 0
  if t ∈ CENTERED_TYPES then
    { x := anchorX - jsDiv size.1 2, y := anchorY - jsDiv size.2 2,
      width := size.1, height := size.2 }
  else
    { x := anchorX, y := anchorY, width := size.1, height := size.2 }

/-- getComponentCenter: center of the anchored bounding box. -/
def getComponentCenter (c : Component) : Point :=
  let bounds := getBoundsFromAnchor c
  { x := bounds.x + jsDiv bounds.width 2,
    y := bounds.y + jsDiv bounds.height 2 }

/-- linesIntersect: strict proper segment intersection via the parametric
test, false for parallel segments. -/
def linesIntersect (a1 a2 b1 b2 : Point) : Bool :=
  let det := (a2.x - a1.x) * (b2.y - b1.y) - (a2.y - a1.y) * (b2.x - b1.x)
  if det = 0 then false
  else
    let lam := jsDiv ((b2.y - b1.y) * (b2.x - a1.x) +
      (b1.x - b2.x) * (b2.y - a1.y)) det
    let gam := jsDiv ((a1.y - a2.y) * (b2.x - a1.x) +
      (a2.x - a1.x) * (b2.y - a1.y)) det
    decide (0 < lam) && decide (lam < 1) && decide (0 < gam) && decide (gam < 1)

/-- The id of a connection endpoint, when it is an id reference
(typeof x === "string" ? x : x.id). -/
def endpointId (e : ConnEnd) : Option String :=
  match e with
  | .cid s => some s
  | .cpt _ _ => none

/-- Whether two anchored bounding boxes overlap with positive area. -/
def boundsOverlap (a b : Rect) : Bool :=
  let overlapX := max 0 (min (a.x + a.width) (b.x + b.width) - max a.x b.x)
  let overlapY := max 0 (min (a.y + a.height) (b.y + b.height) - max a.y b.y)
  decide (0 < overlapX) && decide (0 < overlapY)

/-- Pairwise overlap count over the component list (i < j pairs). -/
def countOverlaps : List Component → ℕ
  | [] => 0
  | c :: rest =>
    rest.countP (fun c2 =>
      boundsOverlap (getBoundsFromAnchor c) (getBoundsFromAnchor c2)) +
    countOverlaps rest

/-- A scored connection segment: endpoint centers plus optional ids. -/
structure Seg where
  from_ : Point
  to_ : Point
  fromId : Option String
  toId : Option String
deriving DecidableEq, Repr

/-- Builds the scored segment of one connection, when both endpoints
resolve to a point (component center for truthy ids, explicit point
otherwise). -/
def segOf (components : List Component) (conn : Connection) : Option Seg :=
  let fromId := truthyS (endpointId conn.from_)
  let toId := truthyS (endpointId conn.to_)
  let fromPoint : Option Point :=
    match fromId with
    | some s => (components.find? (fun c => c.id = s)).map getComponentCenter
    | none =>
      match conn.from_ with
      | .cpt px py => some { x := px, y := py }
      | .cid _ => none
  let toPoint : Option Point :=
    match toId with
    | some s => (components.find? (fun c => c.id = s)).map getComponentCenter
    | none =>
      match conn.to_ with
      | .cpt px py => some { x := px, y := py }
      | .cid _ => none
  match fromPoint, toPoint with
  | some f, some t => some { from_ := f, to_ := t, fromId := fromId, toId := toId }
  | _, _ => none

/-- Whether a pair of segments counts as a crossing: pairs sharing an
endpoint id are excluded, the rest use the strict intersection test. -/
def segsCross (a b : Seg) : Bool :=
  if a.fromId.isSome ∧ (a.fromId = b.fromId ∨ a.fromId = b.toId) then false
  else if a.toId.isSome ∧ (a.toId = b.fromId ∨ a.toId = b.toId) then false
  else linesIntersect a.from_ a.to_ b.from_ b.to_

/-- Pairwise crossing count (i < j pairs). -/
def countCrossings : List Seg → ℕ
  | [] => 0
  | a :: rest => rest.countP (fun b => segsCross a b) + countCrossings rest

/-- scoreLayoutResult: overlap count, crossing count and weighted total of a
laid-out result (reads the result components and connections). -/
def scoreLayoutResult (components : List Component)
    (connections : List Connection) : Score :=
  let overlaps := countOverlaps components
  let connSegments := connections.filterMap (segOf components)
  let crossings := countCrossings connSegments
  { overlaps := overlaps, crossings := crossings,
    total := overlaps * 3 + crossings }

/-- The triple of gaps used by placement. -/
structure Gaps where
  columnGap : ℚ
  rowGap : ℚ
  componentGap : ℚ
deriving DecidableEq, Repr

/-- The merged layout configuration (defaults, template defaults and caller
overrides already combined). -/
structure Config where
  viewBoxWidth : ℚ := 1200
  viewBoxHeight : ℚ := 700
  padding : ℚ := 60
  zoneGap : ℚ := 50
  zonePadding : ℚ := 50
  zoneLabelHeight : ℚ := 30
  componentGap : ℚ := 30
  columnGap : ℚ := 80
  rowGap : ℚ := 90
  minComponentGap : ℚ := 16
  minColumnGap : ℚ := 40
  minRowGap : ℚ := 50
  maxRepairPasses : ℕ := 2
  repairGrowth : ℚ := 5 / 4
  startX : ℚ := 60
  startY : ℚ := 80
  profile : String := "pipeline"
  direction : String := "LR"
  hintsPrimaryPath : List String := []
  hintsGrouping : String := "zone"
  hintsCompact : Bool := true
  repairPass : ℕ := 0
deriving DecidableEq, Repr

/-- getCompactedGaps: uniform scale-down of the configured gaps so the
needed extents fit the view box, scale capped at 1, each gap rounded and
clamped from below to its configured minimum. -/
def getCompactedGaps (config : Config) (neededPrimary neededSecondary : ℚ)
    (isTB : Bool) : Gaps :=
  let availablePrimary := max 1
    ((if isTB then config.viewBoxHeight else config.viewBoxWidth) -
      config.padding * 2)
  let availableSecondary := max 1
    ((if isTB then config.viewBoxWidth else config.viewBoxHeight) -
      config.padding * 2)
  let scalePrimary := if 0 < neededPrimary then
    min 1 (jsDiv availablePrimary neededPrimary) else 1
  let scaleSecondary := if 0 < neededSecondary then
    min 1 (jsDiv availableSecondary neededSecondary) else 1
  let scale := min scalePrimary scaleSecondary
  { columnGap := max config.minColumnGap (jsRound (config.columnGap * scale)),
    rowGap := max config.minRowGap (jsRound (config.rowGap * scale)),
    componentGap :=
      max config.minComponentGap (jsRound (config.componentGap * scale)) }

/-- assignCenteredRows: orders components by flow index (stable), pins the
optional center id to row 0, and assigns the rest alternating rows
+1, -1, +2, -2 and so on. -/
def assignCenteredRows (components : List Component)
    (centerId : Option String) (flowIdx : String → Option ℕ) :
    List (String × ℤ) :=
  let ordered := stableSort
    (fun a b => decide ((flowIdx a.id).getD 9999 ≤ (flowIdx b.id).getD 9999))
    components
  let init : List (String × ℤ) :=
    match truthyS centerId with
    | some c => if ordered.any (fun comp => comp.id = c) then [(c, 0)] else []
    | none => []
  (ordered.foldl (fun (st : List (String × ℤ) × ℤ) comp =>
    let rows := st.1
    let step := st.2
    if jsMapHas rows comp.id then st
    else
      let row := if rows.length % 2 = 0 then step else -step
      let step2 := if rows.length % 2 = 1 then step + 1 else step
      (jsMapSet rows comp.id row, step2)) (init, 1)).1

/-- Math.min over an integer list, 0 when empty
(rows.length > 0 ? Math.min(...rows) : 0). -/
def listMinI (l : List ℤ) : ℤ :=
  match l with
  | [] => 0
  | h :: t => t.foldl min h

/-- Math.max over an integer list, 0 when empty. -/
def listMaxI (l : List ℤ) : ℤ :=
  match l with
  | [] => 0
  | h :: t => t.foldl max h

/-- LAYOUT_TEMPLATES of layout-templates.js. -/
def LAYOUT_TEMPLATES (t : String) : Option Gaps :=
  if t = "pipeline" then
    some { columnGap := 90, rowGap := 120, componentGap := 28 }
  else if t = "hub" then
    some { columnGap := 70, rowGap := 90, componentGap := 24 }
  else if t = "fanout" then
    some { columnGap := 80, rowGap := 110, componentGap := 24 }
  else if t = "tiered" then
    some { columnGap := 100, rowGap := 80, componentGap := 26 }
  else if t = "swimlane" then
    some { columnGap := 110, rowGap := 70, componentGap := 24 }
  else none

/-- The caller-supplied layout configuration: every field optional, merged
over the defaults and the resolved template. -/
structure ConfigIn where
  viewBoxWidth : Option ℚ := none
  viewBoxHeight : Option ℚ := none
  padding : Option ℚ := none
  zoneGap : Option ℚ := none
  zonePadding : Option ℚ := none
  zoneLabelHeight : Option ℚ := none
  componentGap : Option ℚ := none
  columnGap : Option ℚ := none
  rowGap : Option ℚ := none
  minComponentGap : Option ℚ := none
  minColumnGap : Option ℚ := none
  minRowGap : Option ℚ := none
  maxRepairPasses : Option ℕ := none
  repairGrowth : Option ℚ := none
  startX : Option ℚ := none
  startY : Option ℚ := none
  profile : Option String := none
  direction : Option String := none
  template : Option String := none
  hintsPrimaryPath : Option (List String) := none
  hintsGrouping : Option String := none
  hintsCompact : Option Bool := none
  repairPass : Option ℕ := none
deriving DecidableEq, Repr

/-- resolveTemplate: the template gaps keyed by template or profile name,
unknown keys falling back to the pipeline template. -/
def resolveTemplate (o : ConfigIn) : Gaps :=
  let key := orS o.template (orS o.profile "pipeline")
  (LAYOUT_TEMPLATES key).getD
    { columnGap := 90, rowGap := 120, componentGap := 28 }

/-- The config merge of calculateLayout:
DEFAULT_CONFIG, then template defaults (the three gaps), then caller
overrides, with hints merged field-wise and the repair pass counter
defaulting to 0. -/
def mergeConfig (o : ConfigIn) : Config :=
  let tmpl := resolveTemplate o
  { viewBoxWidth := o.viewBoxWidth.getD 1200,
    viewBoxHeight := o.viewBoxHeight.getD 700,
    padding := o.padding.getD 60,
    zoneGap := o.zoneGap.getD 50,
    zonePadding := o.zonePadding.getD 50,
    zoneLabelHeight := o.zoneLabelHeight.getD 30,
    componentGap := o.componentGap.getD tmpl.componentGap,
    columnGap := o.columnGap.getD tmpl.columnGap,
    rowGap := o.rowGap.getD tmpl.rowGap,
    minComponentGap := o.minComponentGap.getD 16,
    minColumnGap := o.minColumnGap.getD 40,
    minRowGap := o.minRowGap.getD 50,
    maxRepairPasses := o.maxRepairPasses.getD 2,
    repairGrowth := o.repairGrowth.getD (jsDiv 5 4),
    startX := o.startX.getD 60,
    startY := o.startY.getD 80,
    profile := o.profile.getD "pipeline",
    direction := o.direction.getD "LR",
    hintsPrimaryPath := o.hintsPrimaryPath.getD [],
    hintsGrouping := o.hintsGrouping.getD "zone",
    hintsCompact := o.hintsCompact.getD true,
    repairPass := o.repairPass.getD 0 }

/-- The repair config of finalizeLayout: gaps grown by the repair growth
factor and rounded, compaction disabled, pass counter incremented. -/
def nextConfig (cfg : Config) : Config :=
  { cfg with
    columnGap := jsRound (cfg.columnGap * cfg.repairGrowth),
    rowGap := jsRound (cfg.rowGap * cfg.repairGrowth),
    componentGap := jsRound (cfg.componentGap * cfg.repairGrowth),
    hintsCompact := false,
    repairPass := cfg.repairPass + 1 }

/-- Abstraction of Math.PI, Math.cos and Math.sin, used only by the hub
profile placement; the JS originals are floating-point approximations of
irrational values that a rational embedding cannot represent exactly.
Theorems about the hub branch constrain the oracle (bounded cos and sin,
positive pi) instead of fixing it. -/
structure TrigOracle where
  pi : ℚ
  cos : ℚ → ℚ
  sin : ℚ → ℚ

end Layout

end Animator

namespace Animator

namespace Layout

/-- Index map as built by new Map(list.map((id, i) => [id, i])): the last
duplicate wins on lookup. -/
def indexMap (l : List String) : List (String × ℕ) :=
  l.enum.map fun p => (p.2, p.1)

/-- The flow order: scenario.flow when non-empty, else the truthy component
ids in original order. -/
def flowOrderOf (s : Scenario) : List String :=
  match s.flow with
  | some f => if f ≠ [] then f else (s.components.map (·.id)).filter (· ≠ "")
  | none => (s.components.map (·.id)).filter (· ≠ "")

/-- Lookup into the flow index map. -/
def flowIdxOf (s : Scenario) (id : String) : Option ℕ :=
  jsMapGet (indexMap (flowOrderOf s)) id

/-- The primary path: the hint filtered to known ids when non-empty, else
the flow order. -/
def primaryPathOf (s : Scenario) (cfg : Config) : List String :=
  if cfg.hintsPrimaryPath ≠ [] then
    cfg.hintsPrimaryPath.filter fun id =>
      (flowIdxOf s id).isSome ∨ s.components.any (fun c => c.id = id)
  else flowOrderOf s

/-- Connection endpoints as optional id pairs. -/
def connectionPairsOf (s : Scenario) : List (Option String × Option String) :=
  s.connections.map fun c => (endpointId c.from_, endpointId c.to_)

/-- The branch parent map: first connection from a primary-path id to a
non-primary id wins. -/
def parentMapOf (s : Scenario) (cfg : Config) : List (String × String) :=
  let primary := primaryPathOf s cfg
  (connectionPairsOf s).foldl
    (fun m p =>
      match truthyS p.1, truthyS p.2 with
      | some f, some t =>
        if primary.contains f ∧ ¬ primary.contains t ∧ ¬ jsMapHas m t then
          jsMapSet m t f
        else m
      | _, _ => m) []

/-- The effective grouping hint (empty string falls back to zone). -/
def groupingOf (cfg : Config) : String :=
  if cfg.hintsGrouping = "" then "zone" else cfg.hintsGrouping

/-- A placement group. -/
structure Group where
  zone : Option Zone
  components : List Component
  index : ℕ
deriving DecidableEq, Repr

/-- The grouping of components into zones, by type, or a single group. -/
def groupsOf (s : Scenario) (cfg : Config) : List Group :=
  let grouping := groupingOf cfg
  if grouping = "zone" ∧ s.zones ≠ [] then
    (s.zones.enum.map fun p =>
      { zone := some { p.2 with
          color := some (orS p.2.color (zoneColorAt p.1)) },
        components := s.components.filter (fun c => c.zone = some p.2.id),
        index := p.1 }) ++
    (let unzoned := s.components.filter (fun c => truthyS c.zone = none)
     if unzoned ≠ [] then
       [{ zone := none, components := unzoned, index := s.zones.length }]
     else [])
  else if grouping = "type" then
    let byType := s.components.foldl
      (fun (m : List (String × List Component)) c =>
        let t := orS c.type "rectangle"
        if jsMapHas m t then
          m.map fun p => if p.1 = t then (p.1, p.2 ++ [c]) else p
        else m ++ [(t, [c])]) []
    byType.enum.map fun p =>
      { zone := none, components := p.2.2, index := p.1 }
  else [{ zone := none, components := s.components, index := 0 }]

/-- Whether zones drive grouping. -/
def useZonesOf (s : Scenario) (cfg : Config) : Bool :=
  groupingOf cfg = "zone" ∧ s.zones ≠ []

/-- getOrderIndex: flow index when present, else original component index,
else 9999. -/
def getOrderIndexOf (s : Scenario) (c : Component) : ℕ :=
  match flowIdxOf s c.id with
  | some i => i
  | none => (jsMapGet (indexMap (s.components.map (·.id))) c.id).getD 9999

/-- The updated component pushed by every placement branch: anchor
coordinates stored in x, y and position, color defaulted by type. -/
def placedComponent (comp : Component) (cx cy : ℚ) : Component :=
  let anchor := centerToAnchor cx cy comp
  let t := orS comp.type "rectangle"
  { comp with
    x := some anchor.1, y := some anchor.2,
    position := some (anchor.1, anchor.2),
    color := some (orS comp.color (orS (TYPE_COLORS t) "#6366f1")) }

/-- The base (uncompacted) gaps of a config. -/
def baseGapsOf (cfg : Config) : Gaps :=
  { columnGap := cfg.columnGap, rowGap := cfg.rowGap,
    componentGap := cfg.componentGap }

/-- The gaps a branch uses: compacted unless hints.compact is false. -/
def gapsUsed (cfg : Config) (estimatedPrimary estimatedSecondary : ℚ)
    (isTB : Bool) : Gaps :=
  if cfg.hintsCompact then
    getCompactedGaps cfg estimatedPrimary estimatedSecondary isTB
  else baseGapsOf cfg

/-- Largest component width and height of a list (fold of Math.max from 0). -/
def maxSizeOf (comps : List Component) : ℚ × ℚ :=
  comps.foldl
    (fun m c =>
      let size := getComponentSizeForComponent c
      (max m.1 size.1, max m.2 size.2)) (0, 0)

/-- The swimlane placement branch (zones as lanes, shared column sizes). -/
def swimlanePlace (s : Scenario) (cfg : Config) :
    List Component × List Zone :=
  let isTB := cfg.direction = "TB"
  let maxFlowIndex :=
    ((flowOrderOf s).map fun id => (flowIdxOf s id).getD 0).foldl max 0
  let totalCols := maxFlowIndex + 1
  let msz := maxSizeOf s.components
  let maxWidth := msz.1
  let maxHeight := msz.2
  let estimatedPrimary := (totalCols : ℚ) * (maxWidth + cfg.columnGap * 2)
  let estimatedSecondary :=
    (s.zones.length : ℚ) * (maxHeight + cfg.rowGap * 2)
  let gaps := gapsUsed cfg estimatedPrimary estimatedSecondary isTB
  let cellPrimary := (if isTB then maxHeight else maxWidth) + gaps.columnGap * 2
  let cellSecondary := (if isTB then maxWidth else maxHeight) + gaps.rowGap * 2
  let lanePrimary := (totalCols : ℚ) * cellPrimary
  let laneSecondary := cellSecondary
  let final := s.zones.enum.foldl
    (fun (st : ℚ × List Component × List Zone) p =>
      let current := st.1
      let zone := p.2
      let zoneWidth := if isTB then
          max 180 (laneSecondary + cfg.zonePadding * 2)
        else max 180 (lanePrimary + cfg.zonePadding * 2)
      let zoneHeight := if isTB then
          max 200 (lanePrimary + cfg.zonePadding * 2 + cfg.zoneLabelHeight)
        else max 200 (laneSecondary + cfg.zonePadding * 2 + cfg.zoneLabelHeight)
      let zoneX := if isTB then cfg.startX else current
      let zoneY := if isTB then current else cfg.startY
      let placedZone := { zone with
        color := some (orS zone.color (zoneColorAt p.1)),
        x := some zoneX, y := some zoneY,
        width := some zoneWidth, height := some zoneHeight }
      let contentStartX := zoneX + cfg.zonePadding +
        (if isTB then jsDiv laneSecondary 2 else jsDiv cellPrimary 2)
      let contentStartY := zoneY + cfg.zoneLabelHeight + cfg.zonePadding +
        (if isTB then jsDiv cellPrimary 2 else jsDiv laneSecondary 2)
      let zoneComponents := s.components.filter fun c => c.zone = some zone.id
      let pushed := zoneComponents.map fun comp =>
        let col := (((flowIdxOf s comp.id).getD 0 : ℕ) : ℚ)
        let cX := if isTB then contentStartX
          else contentStartX + col * cellPrimary
        let cY := if isTB then contentStartY + col * cellPrimary
          else contentStartY
        placedComponent comp cX cY
      (current + (if isTB then zoneHeight else zoneWidth) + cfg.zoneGap,
       st.2.1 ++ pushed, st.2.2 ++ [placedZone]))
    ((if isTB then cfg.startY else cfg.startX), [], [])
  (final.2.1, final.2.2)

/-- Per-zone statistics of the zoned hub and fanout branch. -/
structure ZStat where
  zone : Zone
  components : List Component
  maxWidth : ℚ
  maxHeight : ℚ
deriving DecidableEq, Repr

/-- Degree map over truthy connection endpoint pairs (both sides count). -/
def degreesOf (pairs : List (Option String × Option String)) :
    List (String × ℕ) :=
  pairs.foldl
    (fun m p =>
      match truthyS p.1, truthyS p.2 with
      | some f, some t =>
        let m1 := jsMapSet m f ((jsMapFind m f).getD 0 + 1)
        jsMapSet m1 t ((jsMapFind m1 t).getD 0 + 1)
      | _, _ => m) []

/-- Out-degree map over truthy connection endpoint pairs. -/
def outDegreesOf (pairs : List (Option String × Option String)) :
    List (String × ℕ) :=
  pairs.foldl
    (fun m p =>
      match truthyS p.1, truthyS p.2 with
      | some f, some _ => jsMapSet m f ((jsMapFind m f).getD 0 + 1)
      | _, _ => m) []

/-- Stable descending sort by count (the (a, b) => b[1] - a[1] comparator). -/
def sortDescByCount (l : List (String × ℕ)) : List (String × ℕ) :=
  stableSort (fun a b => decide (b.2 ≤ a.2)) l

/-- pickHub of the zoned hub/fanout branch. -/
def pickHubOf (s : Scenario) (cfg : Config) : String :=
  let primary := primaryPathOf s cfg
  let candidate :=
    if primary ≠ [] then
      primary.find? fun id => s.components.any fun c => c.id = id
    else none
  match truthyS candidate with
  | some c => c
  | none =>
    orS (((sortDescByCount (degreesOf (connectionPairsOf s))).head?).map (·.1))
      ((s.components.head?.map (·.id)).getD "")

/-- pickSource of the zoned hub/fanout branch. -/
def pickSourceOf (s : Scenario) (cfg : Config) : String :=
  let primary := primaryPathOf s cfg
  match primary.head? with
  | some h => h
  | none =>
    orS (((sortDescByCount (outDegreesOf (connectionPairsOf s))).head?).map
        (·.1))
      ((s.components.head?.map (·.id)).getD "")

/-- The zoned hub/fanout placement branch (zones as vertical stacks with
the hub or source pinned to row 0 in its own zone). -/
def zoneHubFanoutPlace (s : Scenario) (cfg : Config) :
    List Component × List Zone :=
  let isTB := cfg.direction = "TB"
  let zoneStats := s.zones.enum.map fun p =>
    let zoneComps := s.components.filter fun c => c.zone = some p.2.id
    let msz := maxSizeOf zoneComps
    { zone := { p.2 with color := some (orS p.2.color (zoneColorAt p.1)) },
      components := zoneComps,
      maxWidth := if msz.1 = 0 then 60 else msz.1,
      maxHeight := if msz.2 = 0 then 60 else msz.2 : ZStat }
  let centerId := if cfg.profile = "hub" then pickHubOf s cfg
    else pickSourceOf s cfg
  let centerComp := s.components.find? fun c => c.id = centerId
  let centerZoneId := centerComp.bind (·.zone)
  let estimatedZones := zoneStats.map fun stat =>
    let count : ℚ := if stat.components.length = 0 then 1
      else (stat.components.length : ℚ)
    let cellHeight := stat.maxHeight + cfg.rowGap * 2
    let zoneContentHeight := count * cellHeight
    (max 180 (stat.maxWidth + cfg.zonePadding * 2),
     max 200 (zoneContentHeight + cfg.zonePadding * 2 + cfg.zoneLabelHeight))
  let estimatedPrimary :=
    (estimatedZones.map (·.1)).foldl (· + ·) 0 +
      (max 0 ((estimatedZones.length : ℚ) - 1)) * cfg.zoneGap
  let estimatedSecondary := (estimatedZones.map (·.2)).foldl max 0
  let gaps := gapsUsed cfg estimatedPrimary estimatedSecondary isTB
  let final := zoneStats.foldl
    (fun (st : ℚ × List Component × List Zone) stat =>
      let current := st.1
      let count : ℚ := if stat.components.length = 0 then 1
        else (stat.components.length : ℚ)
      let cellHeight := stat.maxHeight + gaps.rowGap * 2
      let zoneContentHeight := count * cellHeight
      let zoneWidth := max 180 (stat.maxWidth + cfg.zonePadding * 2)
      let zoneHeight := max 200
        (zoneContentHeight + cfg.zonePadding * 2 + cfg.zoneLabelHeight)
      let zoneX := if isTB then cfg.startX else current
      let zoneY := if isTB then current else cfg.startY
      let placedZone := { stat.zone with
        x := some zoneX, y := some zoneY,
        width := some zoneWidth, height := some zoneHeight }
      let centerX := zoneX + jsDiv zoneWidth 2
      let contentStartY := zoneY + cfg.zoneLabelHeight +
        jsDiv (zoneHeight - cfg.zoneLabelHeight - zoneContentHeight) 2 +
        jsDiv cellHeight 2
      let zoneCenterId : Option String :=
        if centerZoneId = some stat.zone.id then some centerId else none
      let rowById := assignCenteredRows stat.components zoneCenterId
        (flowIdxOf s)
      let minRow := listMinI (rowById.map (·.2))
      let pushed := stat.components.map fun comp =>
        let row := (jsMapFind rowById comp.id).getD 0
        let rowOffset := row - minRow
        let cY := contentStartY + (rowOffset : ℚ) * cellHeight
        placedComponent comp centerX cY
      (current + (if isTB then zoneHeight else zoneWidth) + cfg.zoneGap,
       st.2.1 ++ pushed, st.2.2 ++ [placedZone]))
    ((if isTB then cfg.startY else cfg.startX), [], [])
  (final.2.1, final.2.2)

end Layout

end Animator


namespace Animator

instance : Inhabited Component := ⟨{}⟩

instance : Inhabited Zone := ⟨{}⟩

namespace Layout

/-- Branch select on rationals (cond ? x : y); several multi-way rational
if-chains in the placement code trip a code-generator defect when written
as if-expressions, so they are phrased through this helper. -/
def pickQ (b : Bool) (x y : ℚ) : ℚ := if b then x else y

/-- The pipeline row assignment: primary-path components on row 0, branch
components on alternating rows counted per parent, parentless extras on
alternating rows counted globally. -/
def pipelineRowsOf (primary : List String)
    (parentMap : List (String × String)) (orderedComps : List Component) :
    List (String × ℤ) :=
  (orderedComps.foldl
    (fun (st : List (String × ℤ) × List (String × ℕ) × ℕ) comp =>
      if primary.contains comp.id then
        (jsMapSet st.1 comp.id 0, st.2.1, st.2.2)
      else
        match truthyS (jsMapFind parentMap comp.id) with
        | some parent =>
          let count := (jsMapFind st.2.1 parent).getD 0
          let step : ℤ := ((count / 2 : ℕ) : ℤ) + 1
          let row : ℤ := if count % 2 = 0 then step else -step
          (jsMapSet st.1 comp.id row, jsMapSet st.2.1 parent (count + 1),
           st.2.2)
        | none =>
          let count := st.2.2
          let step : ℤ := ((count / 2 : ℕ) : ℤ) + 1
          let row : ℤ := if count % 2 = 0 then step else -step
          (jsMapSet st.1 comp.id row, st.2.1, st.2.2 + 1))
    ([], [], 0)).1

/-- Degree map restricted to connections with both truthy endpoints inside
the group (the hub-branch degree computation). -/
def groupDegreesOf (groupComps : List Component)
    (pairs : List (Option String × Option String)) : List (String × ℕ) :=
  pairs.foldl
    (fun (m : List (String × ℕ)) p =>
      match truthyS p.1, truthyS p.2 with
      | some f, some t =>
        if (groupComps.any fun c => c.id = f) ∧
            (groupComps.any fun c => c.id = t) then
          let m1 := jsMapSet m f ((jsMapFind m f).getD 0 + 1)
          jsMapSet m1 t ((jsMapFind m1 t).getD 0 + 1)
        else m
      | _, _ => m) []

/-- A zone with its geometry overwritten by a placed rectangle. -/
def zoneWithRect (z : Zone) (r : Rect) : Zone :=
  { z with
    x := some r.x,
    y := some r.y,
    width := some r.width,
    height := some r.height }

/-- The pipeline branch of one group: primary-path components on row 0 in
path order, branch components on alternating rows keyed to their parent. -/
def pipelineGroup (s : Scenario) (cfg : Config) (current : ℚ)
    (orderedComps : List Component) (maxWidth maxHeight : ℚ) :
    List Component × Rect :=
  let isTB := cfg.direction = "TB"
  let rowById := pipelineRowsOf (primaryPathOf s cfg) (parentMapOf s cfg)
    orderedComps
  let rows := rowById.map (·.2)
  let minRow := listMinI rows
  let maxRow := listMaxI rows
  let rowCount : ℚ := ((maxRow - minRow + 1 : ℤ) : ℚ)
  let cols : ℚ := (orderedComps.length : ℚ)
  let maxPrimarySize := if isTB then maxHeight else maxWidth
  let maxSecondarySize := if isTB then maxWidth else maxHeight
  let estimatedPrimary := cols * (maxPrimarySize + cfg.columnGap * 2)
  let estimatedSecondary := rowCount * (maxSecondarySize + cfg.rowGap * 2)
  let gaps := gapsUsed cfg estimatedPrimary estimatedSecondary isTB
  let cellPrimary := maxPrimarySize + gaps.columnGap * 2
  let cellSecondary := maxSecondarySize + gaps.rowGap * 2
  let contentPrimary := cols * cellPrimary
  let contentSecondary := rowCount * cellSecondary
  let contentWidth := if isTB then contentSecondary else contentPrimary
  let contentHeight := if isTB then contentPrimary else contentSecondary
  let useZones := useZonesOf s cfg
  let groupPadding := if useZones then cfg.zonePadding else 0
  let groupLabelHeight := if useZones then cfg.zoneLabelHeight else 0
  let zoneWidth := if useZones then
      max 180 (contentWidth + groupPadding * 2)
    else contentWidth
  let zoneHeight := if useZones then
      max 200 (contentHeight + groupPadding * 2 + groupLabelHeight)
    else contentHeight
  let zoneX := if isTB then cfg.startX else current
  let zoneY := if isTB then current else cfg.startY
  let contentStartX := zoneX + jsDiv (zoneWidth - contentWidth) 2 +
    (if isTB then jsDiv cellSecondary 2 else jsDiv cellPrimary 2)
  let contentStartY := zoneY + groupLabelHeight +
    jsDiv (zoneHeight - groupLabelHeight - contentHeight) 2 +
    (if isTB then jsDiv cellPrimary 2 else jsDiv cellSecondary 2)
  let pushed := orderedComps.enum.map fun p =>
    let i : ℚ := (p.1 : ℚ)
    let row := (jsMapFind rowById p.2.id).getD 0
    let rowOffset : ℚ := ((row - minRow : ℤ) : ℚ)
    let cX := if isTB then contentStartX + rowOffset * cellSecondary
      else contentStartX + i * cellPrimary
    let cY := if isTB then contentStartY + i * cellPrimary
      else contentStartY + rowOffset * cellSecondary
    placedComponent p.2 cX cY
  (pushed, { x := zoneX, y := zoneY, width := zoneWidth, height := zoneHeight })

/-- The tiered branch of one group: one component per cell in a single file
along the primary axis. -/
def tieredGroup (s : Scenario) (cfg : Config) (current : ℚ)
    (orderedComps : List Component) (maxWidth maxHeight : ℚ) :
    List Component × Rect :=
  let isTB := cfg.direction = "TB"
  let cols : ℚ := (orderedComps.length : ℚ)
  let maxPrimarySize := pickQ isTB maxHeight maxWidth
  let maxSecondarySize := pickQ isTB maxWidth maxHeight
  let estimatedPrimary := cols * (maxPrimarySize + cfg.columnGap * 2)
  let estimatedSecondary := maxSecondarySize + cfg.rowGap * 2
  let gaps := gapsUsed cfg estimatedPrimary estimatedSecondary isTB
  let cellPrimary := maxPrimarySize + gaps.columnGap * 2
  let cellSecondary := maxSecondarySize + gaps.rowGap * 2
  let contentWidth := pickQ isTB cellSecondary (cols * cellPrimary)
  let contentHeight := pickQ isTB (cols * cellPrimary) cellSecondary
  let useZones := useZonesOf s cfg
  let groupPadding := pickQ useZones cfg.zonePadding 0
  let groupLabelHeight := pickQ useZones cfg.zoneLabelHeight 0
  let zoneWidth := pickQ useZones
    (max 180 (contentWidth + groupPadding * 2)) contentWidth
  let zoneHeight := pickQ useZones
    (max 200 (contentHeight + groupPadding * 2 + groupLabelHeight))
    contentHeight
  let zoneX := pickQ isTB cfg.startX current
  let zoneY := pickQ isTB current cfg.startY
  let contentStartX := zoneX + jsDiv (zoneWidth - contentWidth) 2 +
    pickQ isTB (jsDiv cellSecondary 2) (jsDiv cellPrimary 2)
  let contentStartY := zoneY + groupLabelHeight +
    jsDiv (zoneHeight - groupLabelHeight - contentHeight) 2 +
    pickQ isTB (jsDiv cellPrimary 2) (jsDiv cellSecondary 2)
  let pushed := orderedComps.enum.map fun p =>
    let i : ℚ := (p.1 : ℚ)
    let cX := pickQ isTB contentStartX (contentStartX + i * cellPrimary)
    let cY := pickQ isTB (contentStartY + i * cellPrimary) contentStartY
    placedComponent p.2 cX cY
  (pushed, { x := zoneX, y := zoneY, width := zoneWidth, height := zoneHeight })

/-- The hub branch of one group: hub at the group center, spokes on a
circle, angles and pi taken from the trig oracle. -/
def hubGroup (trig : TrigOracle) (s : Scenario) (cfg : Config) (current : ℚ)
    (groupComps orderedComps : List Component) (maxWidth maxHeight : ℚ) :
    List Component × Rect :=
  let isTB := cfg.direction = "TB"
  let primary := primaryPathOf s cfg
  let degrees := groupDegreesOf groupComps (connectionPairsOf s)
  let fromPrimary :=
    if primary ≠ [] then
      primary.find? fun id => groupComps.any fun c => c.id = id
    else none
  let hubId :=
    match truthyS fromPrimary with
    | some h => h
    | none =>
      orS (((sortDescByCount degrees).head?).map (·.1))
        ((orderedComps.head?.map (·.id)).getD "")
  let hubComp := (orderedComps.find? fun c => c.id = hubId).getD
    orderedComps.headI
  let spokes := orderedComps.filter fun c => c.id ≠ hubComp.id
  let count := spokes.length
  let maxSize := max maxWidth maxHeight
  let radius0 := max 120 (maxSize + cfg.rowGap)
  let radius1 := if count > 1 then
      max radius0
        (jsDiv ((count : ℚ) * (maxSize + cfg.columnGap)) (2 * trig.pi))
    else radius0
  let estimatedPrimary := radius1 * 2 + maxSize
  let estimatedSecondary := radius1 * 2 + maxSize
  let gaps := gapsUsed cfg estimatedPrimary estimatedSecondary isTB
  let radius := max 100 (if count > 1 then
      jsDiv ((count : ℚ) * (maxSize + gaps.columnGap)) (2 * trig.pi)
    else maxSize + gaps.rowGap)
  let contentWidth := radius * 2 + maxSize
  let contentHeight := radius * 2 + maxSize
  let useZones := useZonesOf s cfg
  let groupPadding := if useZones then cfg.zonePadding else 0
  let groupLabelHeight := if useZones then cfg.zoneLabelHeight else 0
  let zoneWidth := if useZones then
      max 180 (contentWidth + groupPadding * 2)
    else contentWidth
  let zoneHeight := if useZones then
      max 200 (contentHeight + groupPadding * 2 + groupLabelHeight)
    else contentHeight
  let zoneX := if isTB then cfg.startX else current
  let zoneY := if isTB then current else cfg.startY
  let centerX := zoneX + jsDiv zoneWidth 2
  let centerY := zoneY + groupLabelHeight +
    jsDiv (zoneHeight - groupLabelHeight) 2
  let hubPushed := placedComponent hubComp centerX centerY
  let startAngle := if isTB then trig.pi else -(jsDiv trig.pi 2)
  let angleStep := if count > 0 then jsDiv (trig.pi * 2) (count : ℚ) else 0
  let spokesPushed := spokes.enum.map fun p =>
    let angle := startAngle + (p.1 : ℚ) * angleStep
    let cx := centerX + trig.cos angle * radius
    let cy := centerY + trig.sin angle * radius
    placedComponent p.2 cx cy
  (hubPushed :: spokesPushed,
   { x := zoneX, y := zoneY, width := zoneWidth, height := zoneHeight })

/-- The fanout branch of one group: source at one end of the primary axis,
targets in a centered perpendicular file at the other end. -/
def fanoutGroup (s : Scenario) (cfg : Config) (current : ℚ)
    (orderedComps : List Component) (maxWidth maxHeight : ℚ) :
    List Component × Rect :=
  let isTB := cfg.direction = "TB"
  let primary := primaryPathOf s cfg
  let outDegrees := outDegreesOf (connectionPairsOf s)
  let sourceId : Option String :=
    (truthyS primary.head?) <|>
      (((sortDescByCount outDegrees).head?).map (·.1))
  let found : Option Component :=
    match sourceId with
    | some sid => orderedComps.find? fun c => c.id = sid
    | none => none
  let sourceComp := found.getD orderedComps.headI
  let targets := orderedComps.filter fun c => c.id ≠ sourceComp.id
  let maxPrimarySize := pickQ isTB maxHeight maxWidth
  let maxSecondarySize := pickQ isTB maxWidth maxHeight
  let estimatedPrimary := 2 * (maxPrimarySize + cfg.columnGap * 2)
  let estimatedSecondary :=
    (max 1 (targets.length : ℚ)) * (maxSecondarySize + cfg.rowGap * 2)
  let gaps := gapsUsed cfg estimatedPrimary estimatedSecondary isTB
  let cellPrimary := maxPrimarySize + gaps.columnGap * 2
  let cellSecondary := maxSecondarySize + gaps.rowGap * 2
  let targetCount : ℚ := max 1 (targets.length : ℚ)
  let contentWidth := pickQ isTB (targetCount * cellSecondary)
    (cellPrimary * 2)
  let contentHeight := pickQ isTB (cellPrimary * 2)
    (targetCount * cellSecondary)
  let useZones := useZonesOf s cfg
  let groupPadding := pickQ useZones cfg.zonePadding 0
  let groupLabelHeight := pickQ useZones cfg.zoneLabelHeight 0
  let zoneWidth := pickQ useZones
    (max 180 (contentWidth + groupPadding * 2)) contentWidth
  let zoneHeight := pickQ useZones
    (max 200 (contentHeight + groupPadding * 2 + groupLabelHeight))
    contentHeight
  let zoneX := pickQ isTB cfg.startX current
  let zoneY := pickQ isTB current cfg.startY
  let contentStartX := zoneX + jsDiv (zoneWidth - contentWidth) 2 +
    pickQ isTB (jsDiv cellSecondary 2) (jsDiv cellPrimary 2)
  let contentStartY := zoneY + groupLabelHeight +
    jsDiv (zoneHeight - groupLabelHeight - contentHeight) 2 +
    pickQ isTB (jsDiv cellPrimary 2) (jsDiv cellSecondary 2)
  let targetCenterX := pickQ isTB contentStartX
    (contentStartX + cellPrimary)
  let targetCenterY := pickQ isTB (contentStartY + cellPrimary)
    (contentStartY + jsDiv contentHeight 2)
  let sourceCenterX := pickQ isTB (contentStartX + jsDiv contentWidth 2)
    contentStartX
  let sourceCenterY := pickQ isTB contentStartY targetCenterY
  let sourcePushed := placedComponent sourceComp sourceCenterX sourceCenterY
  let rows := targets.length
  let firstRowOffset : ℤ := if rows > 0 then -(((rows / 2 : ℕ) : ℤ)) else 0
  let targetsPushed := targets.enum.map fun p =>
    let rowOffset : ℚ := ((firstRowOffset + (p.1 : ℤ) : ℤ) : ℚ)
    let cY := pickQ isTB targetCenterY
      (targetCenterY + rowOffset * cellSecondary)
    let adjCenterX := pickQ isTB (targetCenterX + rowOffset * cellSecondary)
      targetCenterX
    placedComponent p.2 adjCenterX cY
  (sourcePushed :: targetsPushed,
   { x := zoneX, y := zoneY, width := zoneWidth, height := zoneHeight })

/-- The grid fallback branch of one group: near-square grid in order
(2 columns from 3 components up). -/
def gridGroup (s : Scenario) (cfg : Config) (current : ℚ)
    (orderedComps : List Component) (maxWidth maxHeight : ℚ) :
    List Component × Rect :=
  let isTB := cfg.direction = "TB"
  let cols : ℕ := if orderedComps.length ≥ 3 then 2 else 1
  let rows : ℕ := (orderedComps.length + cols - 1) / cols
  let estimatedPrimary :=
    (((if isTB then rows else cols) : ℕ) : ℚ) *
      (maxWidth + cfg.componentGap * 2)
  let estimatedSecondary :=
    (((if isTB then cols else rows) : ℕ) : ℚ) *
      (maxHeight + cfg.componentGap * 2)
  let gaps := gapsUsed cfg estimatedPrimary estimatedSecondary isTB
  let cellWidth := maxWidth + gaps.componentGap * 2
  let cellHeight := maxHeight + gaps.componentGap * 2
  let zoneContentWidth := (cols : ℚ) * cellWidth
  let zoneContentHeight := (rows : ℚ) * cellHeight
  let useZones := useZonesOf s cfg
  let groupPadding := if useZones then cfg.zonePadding else 0
  let groupLabelHeight := if useZones then cfg.zoneLabelHeight else 0
  let zoneWidth := if useZones then
      max 180 (zoneContentWidth + groupPadding * 2)
    else zoneContentWidth
  let zoneHeight := if useZones then
      max 200 (zoneContentHeight + groupPadding * 2 + groupLabelHeight)
    else zoneContentHeight
  let zoneX := if isTB then cfg.startX else current
  let zoneY := if isTB then current else cfg.startY
  let contentStartX := zoneX + jsDiv (zoneWidth - zoneContentWidth) 2 +
    jsDiv cellWidth 2
  let contentStartY := zoneY + groupLabelHeight +
    jsDiv (zoneHeight - groupLabelHeight - zoneContentHeight) 2 +
    jsDiv cellHeight 2
  let pushed := orderedComps.enum.map fun p =>
    let col : ℚ := ((p.1 % cols : ℕ) : ℚ)
    let row : ℚ := ((p.1 / cols : ℕ) : ℚ)
    let cX := contentStartX + col * cellWidth
    let cY := contentStartY + row * cellHeight
    placedComponent p.2 cX cY
  (pushed, { x := zoneX, y := zoneY, width := zoneWidth, height := zoneHeight })

/-- Placement of one group, dispatching on the profile; unrecognized
profiles take the grid fallback. -/
def groupPlace (trig : TrigOracle) (s : Scenario) (cfg : Config)
    (current : ℚ) (g : Group) : List Component × Rect :=
  let orderedComps := stableSort
    (fun a b => decide (getOrderIndexOf s a ≤ getOrderIndexOf s b))
    g.components
  let msz := maxSizeOf orderedComps
  if cfg.profile = "pipeline" then
    pipelineGroup s cfg current orderedComps msz.1 msz.2
  else if cfg.profile = "tiered" then
    tieredGroup s cfg current orderedComps msz.1 msz.2
  else if cfg.profile = "hub" then
    hubGroup trig s cfg current g.components orderedComps msz.1 msz.2
  else if cfg.profile = "fanout" then
    fanoutGroup s cfg current orderedComps msz.1 msz.2
  else
    gridGroup s cfg current orderedComps msz.1 msz.2

/-- The generic group loop: groups in index order, each advancing the
primary cursor by its zone extent plus the zone gap; empty groups are
skipped and zones are emitted only under zone grouping. -/
def genericPlace (trig : TrigOracle) (s : Scenario) (cfg : Config) :
    List Component × List Zone :=
  let isTB := cfg.direction = "TB"
  let useZones := useZonesOf s cfg
  let sortedGroups := stableSort
    (fun a b => decide (a.index ≤ b.index)) (groupsOf s cfg)
  let final := sortedGroups.foldl
    (fun (st : ℚ × List Component × List Zone) g =>
      if g.components = [] then st
      else
        let placed := groupPlace trig s cfg st.1 g
        let zrect := placed.2
        let newZones : List Zone :=
          match g.zone with
          | some z => if useZones then [zoneWithRect z zrect] else []
          | none => []
        (st.1 + (if isTB then zrect.height else zrect.width) + cfg.zoneGap,
         st.2.1 ++ placed.1, st.2.2 ++ newZones))
    ((if isTB then cfg.startY else cfg.startX), [], [])
  (final.2.1, final.2.2)

/-- The whole placement pass: swimlane with zones, zoned hub/fanout, or the
generic group loop. -/
def placeAll (trig : TrigOracle) (s : Scenario) (cfg : Config) :
    List Component × List Zone :=
  if useZonesOf s cfg ∧ cfg.profile = "swimlane" then swimlanePlace s cfg
  else if useZonesOf s cfg ∧ (cfg.profile = "hub" ∨ cfg.profile = "fanout")
    then zoneHubFanoutPlace s cfg
  else genericPlace trig s cfg

/-- Maximum right and bottom extents of placed zones and components
(the content-bounds computation shared by all exit paths). -/
def contentMaxOf (zones : List Zone) (comps : List Component) : ℚ × ℚ :=
  let zm := zones.foldl
    (fun (m : ℚ × ℚ) z =>
      (max m.1 (z.x.getD 0 + z.width.getD 0),
       max m.2 (z.y.getD 0 + z.height.getD 0))) (0, 0)
  comps.foldl
    (fun (m : ℚ × ℚ) c =>
      let b := getBoundsFromAnchor c
      (max m.1 (b.x + b.width), max m.2 (b.y + b.height))) zm

/-- A laid-out scenario: the input with positions overwritten, stage
bounds and score attached. -/
structure LayoutOut where
  components : List Component
  zones : Option (List Zone)
  connections : List Connection
  flow : Option (List String)
  layoutApplied : Bool
  stageW : ℚ
  stageH : ℚ
  score : Score
deriving DecidableEq, Repr

/-- The result of calculateLayout: the scenario unchanged (empty component
list) or a laid-out scenario. -/
inductive LayoutResult where
  | unchanged (s : Scenario)
  | laid (out : LayoutOut)
deriving DecidableEq, Repr

/-- The single-pass result before the repair decision. -/
def passOut (trig : TrigOracle) (s : Scenario) (cfg : Config) : LayoutOut :=
  let placed := placeAll trig s cfg
  let cm := contentMaxOf placed.2 placed.1
  let contentWidth := cm.1 + cfg.padding
  let contentHeight := cm.2 + cfg.padding
  { components := placed.1,
    zones := if placed.2 ≠ [] then some placed.2
      else if useZonesOf s cfg then some s.zones else none,
    connections := s.connections,
    flow := s.flow,
    layoutApplied := true,
    stageW := max cfg.viewBoxWidth contentWidth,
    stageH := max cfg.viewBoxHeight contentHeight,
    score := scoreLayoutResult placed.1 s.connections }

/-- Whether finalizeLayout triggers a repair pass: poor score and pass
counter below the maximum. -/
def repairTriggered (trig : TrigOracle) (s : Scenario) (cfg : Config) :
    Bool :=
  let score := (passOut trig s cfg).score
  (score.overlaps > 0 ∨ score.crossings > 2) ∧
    cfg.repairPass < cfg.maxRepairPasses

/-- The layout recursion on explicit fuel; the source recursion always has
the pass budget maxRepairPasses - repairPass available, so the fuel-zero
fallback is unreachable for that fuel (proved below). -/
def calcAux (trig : TrigOracle) : ℕ → Scenario → Config → LayoutResult
  | fuel, s, cfg =>
    if s.components = [] then .unchanged s
    else if repairTriggered trig s cfg then
      match fuel with
      | 0 => .laid (passOut trig s cfg)
      | n + 1 => calcAux trig n s (nextConfig cfg)
    else .laid (passOut trig s cfg)

/-- calculateLayout on an already-merged config (the source re-merges the
full config on each repair recursion, which is the identity on a total
config). -/
def calculateLayoutMerged (trig : TrigOracle) (s : Scenario)
    (cfg : Config) : LayoutResult :=
  calcAux trig (cfg.maxRepairPasses - cfg.repairPass) s cfg

/-- calculateLayout: merges the caller config over the defaults and
template defaults, runs placement, scores it and repairs up to the
configured number of passes. -/
def calculateLayout (trig : TrigOracle) (s : Scenario) (o : ConfigIn) :
    LayoutResult :=
  calculateLayoutMerged trig s (mergeConfig o)

/-- Number of repair re-invocations actually performed. -/
def repairDepth (trig : TrigOracle) : ℕ → Scenario → Config → ℕ
  | fuel, s, cfg =>
    if s.components = [] then 0
    else if repairTriggered trig s cfg then
      match fuel with
      | 0 => 0
      | n + 1 => repairDepth trig n s (nextConfig cfg) + 1
    else 0

end Layout

end Animator

namespace Animator

open Layout

-- =====================================================
-- Claim-support definitions
-- =====================================================

/-- A concrete trig oracle for evaluating non-hub scenarios (the hub branch
is the only consumer of the oracle). -/
def trigSimple : TrigOracle :=
  { pi := 3, cos := fun _ => 0, sin := fun _ => 0 }

/-- The laid-out payload of a layout result, when there is one. -/
def laidOf : LayoutResult → Option LayoutOut
  | .unchanged _ => none
  | .laid out => some out

/-- Whether every component of a laid-out result, converted through the
layout anchor semantics, lies within [0, stageW] x [0, stageH]. -/
def withinStage (out : LayoutOut) : Bool :=
  out.components.all fun c =>
    let b := getBoundsFromAnchor c
    decide (0 ≤ b.x) && decide (0 ≤ b.y) &&
    decide (b.x + b.width ≤ out.stageW) &&
    decide (b.y + b.height ≤ out.stageH)

/-- The five profile names the placement dispatch recognizes. -/
def knownProfiles : List String :=
  ["pipeline", "tiered", "hub", "fanout", "swimlane"]

/-- The number of repair re-invocations calculateLayout performs from a
merged config (the fuel equals the remaining pass budget, which is proved
sufficient below). -/
def repairCount (trig : TrigOracle) (s : Scenario) (cfg : Config) : ℕ :=
  repairDepth trig (cfg.maxRepairPasses - cfg.repairPass) s cfg

/-- Non-negativity of the spacing-relevant configuration parameters. -/
def ConfigNonneg (cfg : Config) : Prop :=
  0 ≤ cfg.startX ∧ 0 ≤ cfg.startY ∧ 0 ≤ cfg.padding ∧
  0 ≤ cfg.columnGap ∧ 0 ≤ cfg.rowGap ∧ 0 ≤ cfg.componentGap ∧
  0 ≤ cfg.minColumnGap ∧ 0 ≤ cfg.minRowGap ∧ 0 ≤ cfg.minComponentGap ∧
  0 ≤ cfg.zoneGap ∧ 0 ≤ cfg.zonePadding ∧ 0 ≤ cfg.zoneLabelHeight ∧
  0 ≤ cfg.repairGrowth

instance (cfg : Config) : Decidable (ConfigNonneg cfg) := by
  unfold ConfigNonneg; infer_instance

/-- The gap compaction formula in the words of the specification: per-axis
ratio of available extent (canvas size minus twice the padding) to needed
extent, minimum of the two ratios capped at 1, applied to each configured
gap and clamped from below to the configured minimum. Spec-side definition,
to be compared with getCompactedGaps. -/
def compactGapsSpec (cfg : Config) (neededPrimary neededSecondary : ℚ)
    (isTB : Bool) : Gaps :=
  let availablePrimary :=
    (if isTB then cfg.viewBoxHeight else cfg.viewBoxWidth) - cfg.padding * 2
  let availableSecondary :=
    (if isTB then cfg.viewBoxWidth else cfg.viewBoxHeight) - cfg.padding * 2
  let ratioPrimary := availablePrimary / neededPrimary
  let ratioSecondary := availableSecondary / neededSecondary
  let scale := min 1 (min ratioPrimary ratioSecondary)
  { columnGap := max cfg.minColumnGap (jsRound (cfg.columnGap * scale)),
    rowGap := max cfg.minRowGap (jsRound (cfg.rowGap * scale)),
    componentGap :=
      max cfg.minComponentGap (jsRound (cfg.componentGap * scale)) }

/-- A single default rectangle component. -/
def compOne : Component := { id := "A" }

/-- A one-component scenario. -/
def scenarioOne : Scenario := { components := [compOne] }

/-- The three-component pipeline scenario of the concrete claim. -/
def scenarioABC : Scenario :=
  { components := [{ id := "A" }, { id := "B" }, { id := "C" }] }

/-- Two default rectangles (used by the repair counterexample). -/
def scenarioAB : Scenario :=
  { components := [{ id := "a" }, { id := "b" }] }

/-- Three default rectangles (a fanout source and two targets). -/
def scenarioFanout : Scenario :=
  { components := [{ id := "src" }, { id := "t1" }, { id := "t2" }] }

/-- The default box centered at (100, 100): top-left anchor (40, 70). -/
def boxA : Component := { id := "a", x := some 40, y := some 70 }

/-- The default box centered at (300, 100): top-left anchor (240, 70). -/
def boxB : Component := { id := "b", x := some 240, y := some 70 }

end Animator

namespace Animator

open Layout

-- =====================================================
-- Theorems
-- =====================================================

/-- C1: the layout engine and the connection resolver disagree on the
anchor semantics of the shape kind server: the layout engine classifies it
as center-anchored, the resolver as top-left-anchored, so the two bounding
boxes computed for the same stored position and size differ. -/
theorem anchorBounds_disagree_on_server :
    ("server" ∈ Layout.CENTERED_TYPES ∧ "server" ∉ Resolver.centeredTypes) ∧
    Layout.getBoundsFromAnchor
      { id := "s", type := some "server", x := some 0, y := some 0 } =
      { x := -30, y := -40, width := 60, height := 80 } ∧
    (Resolver.getComponentBounds
      { id := "s", type := some "server", x := some 0, y := some 0 }).x = 0 ∧
    (Resolver.getComponentBounds
      { id := "s", type := some "server", x := some 0, y := some 0 }).y = 0 :=
  of_decide_eq_true (by with_unfolding_all rfl)

/-- C3 counterexample: with a single default component, an unrecognized
profile string is not laid out like the pipeline profile - the grid
fallback places the component elsewhere. -/
theorem unknownProfile_not_pipeline :
    (laidOf (calculateLayout trigSimple scenarioOne
      { profile := some "bogus" })).map (·.components) ≠
    (laidOf (calculateLayout trigSimple scenarioOne
      { profile := some "pipeline" })).map (·.components) :=
  of_decide_eq_true (by with_unfolding_all rfl)

/-- C5 counterexample: with a negative configured column gap (and
compaction off), the first pass overlaps, a repair pass is triggered, and
the repaired column gap is strictly smaller than the previous one - not
strictly greater as claimed. -/
theorem repairGap_not_monotonic :
    repairTriggered trigSimple scenarioAB
      (mergeConfig { columnGap := some (-100), hintsCompact := some false })
      = true ∧
    (nextConfig (mergeConfig
      { columnGap := some (-100), hintsCompact := some false })).columnGap <
    (mergeConfig
      { columnGap := some (-100), hintsCompact := some false }).columnGap :=
  of_decide_eq_true (by with_unfolding_all rfl)

/-- Supplementary: with a negative configured startX, the placed component
lies left of x = 0, outside the reported stage rectangle, so containment
also needs a non-negativity restriction on the configuration. -/
theorem containment_fails_on_negative_startX :
    (laidOf (calculateLayout trigSimple scenarioOne
      { startX := some (-1000) })).map withinStage = some false :=
  of_decide_eq_true (by with_unfolding_all rfl)

/-- C7: containment fails on an ordinary input. Three default rectangles
under profile fanout with direction TB (every other setting left at its
default) place the first target at bounds x = -170, outside
[0, stageW] x [0, stageH]: the TB branch spreads targets around
targetCenterX = contentStartX, missing the + contentWidth / 2 shift that
the symmetric LR branch applies to targetCenterY. -/
theorem containment_fails_fanoutTB :
    (laidOf (calculateLayout trigSimple scenarioFanout
      { profile := some "fanout", direction := some "TB" })).map withinStage
      = some false ∧
    (laidOf (calculateLayout trigSimple scenarioFanout
      { profile := some "fanout", direction := some "TB" })).map
      (fun out => out.components.map (fun c => (getBoundsFromAnchor c).x)) =
      some [510, -170, 170] :=
  of_decide_eq_true (by with_unfolding_all rfl)

/-- C8: three default boxes under the pipeline profile, direction LR and
column gap 80 get centers at x = 60+(120/2+80), 60+(120/2+80)+(120+160)
and 60+(120/2+80)+2*(120+160), all sharing one y coordinate. -/
theorem pipeline_concrete_centers :
    ∃ y : ℚ,
      (laidOf (calculateLayout trigSimple scenarioABC
        { profile := some "pipeline", columnGap := some 80 })).map
        (fun out => out.components.map getComponentCenter) =
      some [{ x := 60 + (120 / 2 + 80), y := y },
            { x := 60 + (120 / 2 + 80) + (120 + 2 * 80), y := y },
            { x := 60 + (120 / 2 + 80) + 2 * (120 + 2 * 80), y := y }] :=
  ⟨230, of_decide_eq_true (by with_unfolding_all rfl)⟩

end Animator

namespace Animator

open Layout

/-- C2 counterexample: an unresolvable from endpoint is left as the id
string, not replaced by any center point. -/
theorem unresolvable_endpoint_stays_id :
    (Resolver.resolveConnection (Resolver.registerComponents [boxB]) []
      { from_ := .cid "ghost", to_ := .cid "b" }).1.from_ = .cid "ghost" ∧
    ¬ ∃ x y : ℚ,
      (Resolver.resolveConnection (Resolver.registerComponents [boxB]) []
        { from_ := .cid "ghost", to_ := .cid "b" }).1.from_ = .cpt x y := by
  have h : (Resolver.resolveConnection (Resolver.registerComponents [boxB]) []
      { from_ := .cid "ghost", to_ := .cid "b" }).1.from_ = .cid "ghost" :=
    of_decide_eq_true (by with_unfolding_all rfl)
  refine ⟨h, ?_⟩
  rintro ⟨x, y, hc⟩
  rw [h] at hc
  exact ConnEnd.noConfusion hc

/-- C2 (amended): resolveConnection is total (never throws); an endpoint
whose id misses the lookup is left unchanged as that id and a warning is
emitted; and when the source resolves but the target id does not, the
source endpoint becomes the source center point while resolution
continues. -/
theorem resolveConnection_missing_id (cm : List (String × Component))
    (zm : List (String × Zone)) (conn : Connection) :
    (∀ s, conn.from_ = .cid s → Resolver.getComponent cm zm s = none →
      (Resolver.resolveConnection cm zm conn).1.from_ = .cid s ∧
      (Resolver.resolveConnection cm zm conn).2 ≠ []) ∧
    (∀ t, conn.to_ = .cid t → Resolver.getComponent cm zm t = none →
      (Resolver.resolveConnection cm zm conn).1.to_ = .cid t ∧
      (Resolver.resolveConnection cm zm conn).2 ≠ []) ∧
    (∀ s t fc, conn.from_ = .cid s → conn.to_ = .cid t →
      Resolver.getComponent cm zm s = some fc →
      Resolver.getComponent cm zm t = none →
      (Resolver.resolveConnection cm zm conn).1.from_ =
        .cpt (Resolver.getComponentBounds fc).centerX
          (Resolver.getComponentBounds fc).centerY) := by
  refine ⟨?_, ?_, ?_⟩
  · intro s hf hnone
    cases ht : conn.to_ with
    | cid t =>
      cases hg : Resolver.getComponent cm zm t with
      | none => simp [Resolver.resolveConnection, hf, hnone, ht, hg]
      | some tc => simp [Resolver.resolveConnection, hf, hnone, ht, hg]
    | cpt px py => simp [Resolver.resolveConnection, hf, hnone, ht]
  · intro t ht hnone
    cases hf : conn.from_ with
    | cid s =>
      cases hg : Resolver.getComponent cm zm s with
      | none => simp [Resolver.resolveConnection, hf, hnone, ht, hg]
      | some fc => simp [Resolver.resolveConnection, hf, hnone, ht, hg]
    | cpt px py => simp [Resolver.resolveConnection, hf, ht, hnone]
  · intro s t fc hf ht hsome hnone
    simp [Resolver.resolveConnection, hf, ht, hsome, hnone]

/-- C2 witness: the ghost-to-b connection instantiates the amended
statement. -/
theorem resolveConnection_missing_id_witness :
    (Resolver.resolveConnection (Resolver.registerComponents [boxB]) []
      { from_ := .cid "ghost", to_ := .cid "b" }).1.from_ = .cid "ghost" ∧
    (Resolver.resolveConnection (Resolver.registerComponents [boxB]) []
      { from_ := .cid "ghost", to_ := .cid "b" }).2 ≠ [] :=
  (resolveConnection_missing_id (Resolver.registerComponents [boxB]) []
    { from_ := .cid "ghost", to_ := .cid "b" }).1 "ghost" rfl
    (of_decide_eq_true (by with_unfolding_all rfl))

/-- C9: when both endpoints resolve, the horizontal delta dominates and the
target center is to the right of the source center, the connection exits
the right edge midpoint of the source and enters the left edge midpoint of
the target. -/
theorem resolveConnection_opposes_horizontal (cm : List (String × Component))
    (zm : List (String × Zone)) (conn : Connection) (s t : String)
    (fc tc : Component)
    (hf : conn.from_ = .cid s) (ht : conn.to_ = .cid t)
    (hfc : Resolver.getComponent cm zm s = some fc)
    (htc : Resolver.getComponent cm zm t = some tc)
    (hdom : |(Resolver.getComponentBounds tc).centerY -
        (Resolver.getComponentBounds fc).centerY| <
      |(Resolver.getComponentBounds tc).centerX -
        (Resolver.getComponentBounds fc).centerX|)
    (hright : 0 < (Resolver.getComponentBounds tc).centerX -
        (Resolver.getComponentBounds fc).centerX) :
    (Resolver.resolveConnection cm zm conn).1.from_ =
      .cpt ((Resolver.getComponentBounds fc).x +
          (Resolver.getComponentBounds fc).width)
        (Resolver.getComponentBounds fc).centerY ∧
    (Resolver.resolveConnection cm zm conn).1.to_ =
      .cpt (Resolver.getComponentBounds tc).x
        (Resolver.getComponentBounds tc).centerY := by
  simp [Resolver.resolveConnection, hf, ht, hfc, htc,
    Resolver.calculateOptimalConnectionPoints, Resolver.getConnectionPoint,
    hdom, hright]

/-- C9 witness: two default boxes centered at (100, 100) and (300, 100)
resolve to from = (160, 100) and to = (240, 100). -/
theorem resolveConnection_opposes_horizontal_witness :
    (Resolver.resolveConnection (Resolver.registerComponents [boxA, boxB]) []
      { from_ := .cid "a", to_ := .cid "b" }).1.from_ = .cpt 160 100 ∧
    (Resolver.resolveConnection (Resolver.registerComponents [boxA, boxB]) []
      { from_ := .cid "a", to_ := .cid "b" }).1.to_ = .cpt 240 100 := by
  have h := resolveConnection_opposes_horizontal
    (Resolver.registerComponents [boxA, boxB]) []
    { from_ := .cid "a", to_ := .cid "b" } "a" "b" boxA boxB rfl rfl
    (of_decide_eq_true (by with_unfolding_all rfl))
    (of_decide_eq_true (by with_unfolding_all rfl))
    (of_decide_eq_true (by with_unfolding_all rfl))
    (of_decide_eq_true (by with_unfolding_all rfl))
  refine ⟨h.1.trans ?_, h.2.trans ?_⟩
  · exact of_decide_eq_true (by with_unfolding_all rfl)
  · exact of_decide_eq_true (by with_unfolding_all rfl)

end Animator

namespace Animator

open Layout

/-- C6: on any configuration whose available extents (canvas minus twice
the padding) are at least 1 on both axes and any positive needed extents,
getCompactedGaps equals the specification formula (per-axis availability
ratios, minimum of the two, capped at 1, applied to each gap and clamped
to its configured minimum); and with hints.compact false the placement
uses the unscaled configured gaps. -/
theorem getCompactedGaps_correct (cfg : Config) (p s : ℚ) (tb : Bool)
    (hP : 1 ≤ (if tb then cfg.viewBoxHeight else cfg.viewBoxWidth) -
      cfg.padding * 2)
    (hS : 1 ≤ (if tb then cfg.viewBoxWidth else cfg.viewBoxHeight) -
      cfg.padding * 2)
    (hp : 0 < p) (hs : 0 < s) :
    getCompactedGaps cfg p s tb = compactGapsSpec cfg p s tb ∧
    (∀ cfg2 : Config, cfg2.hintsCompact = false →
      ∀ e1 e2 : ℚ, ∀ tb2 : Bool, gapsUsed cfg2 e1 e2 tb2 = baseGapsOf cfg2) := by
  constructor
  · simp only [getCompactedGaps, compactGapsSpec, jsDiv_eq, hp, hs, if_true,
      max_eq_right hP, max_eq_right hS]
    rw [← inf_inf_distrib_left]
  · intro cfg2 hc e1 e2 tb2
    simp [gapsUsed, hc]

/-- C6 witness: the default configuration with the needed extents of the
three-box pipeline scenario. -/
theorem getCompactedGaps_correct_witness :
    getCompactedGaps (mergeConfig {}) 840 240 false =
      compactGapsSpec (mergeConfig {}) 840 240 false :=
  (getCompactedGaps_correct (mergeConfig {}) 840 240 false
    (of_decide_eq_true (by with_unfolding_all rfl))
    (of_decide_eq_true (by with_unfolding_all rfl))
    (of_decide_eq_true (by with_unfolding_all rfl))
    (of_decide_eq_true (by with_unfolding_all rfl))).1

end Animator

namespace Animator

open Layout

/-- One-step unfolding of the layout recursion at positive fuel. -/
theorem calcAux_succ (trig : TrigOracle) (n : ℕ) (s : Scenario)
    (cfg : Config) :
    calcAux trig (n + 1) s cfg =
      if s.components = [] then .unchanged s
      else if repairTriggered trig s cfg then
        calcAux trig n s (nextConfig cfg)
      else .laid (passOut trig s cfg) := rfl

/-- At zero fuel no recursion happens. -/
theorem calcAux_zero (trig : TrigOracle) (s : Scenario) (cfg : Config) :
    calcAux trig 0 s cfg =
      if s.components = [] then .unchanged s
      else .laid (passOut trig s cfg) := by
  by_cases h : s.components = [] <;>
    by_cases h2 : repairTriggered trig s cfg <;>
      simp [calcAux, h, h2]

/-- The repair trigger implies the pass counter is below the maximum. -/
theorem trigger_pass_lt {trig : TrigOracle} {s : Scenario} {cfg : Config}
    (h : repairTriggered trig s cfg = true) :
    cfg.repairPass < cfg.maxRepairPasses := by
  simp only [repairTriggered, decide_eq_true_eq] at h
  exact h.2

/-- The repair depth is bounded by the fuel. -/
theorem repairDepth_le_fuel (trig : TrigOracle) :
    ∀ (fuel : ℕ) (s : Scenario) (cfg : Config),
      repairDepth trig fuel s cfg ≤ fuel := by
  intro fuel
  induction fuel with
  | zero =>
    intro s cfg
    by_cases h : s.components = [] <;>
      by_cases h2 : repairTriggered trig s cfg <;>
        simp [repairDepth, h, h2]
  | succ n ih =>
    intro s cfg
    by_cases h : s.components = [] <;>
      by_cases h2 : repairTriggered trig s cfg <;>
        simp [repairDepth, h, h2]
    exact ih s (nextConfig cfg)

/-- Fuel irrelevance: any fuel at least the remaining pass budget computes
the same result as the canonical budget, so the source recursion (which
always has the full budget available) is captured faithfully. -/
theorem calcAux_fuel_irrel (trig : TrigOracle) (s : Scenario) :
    ∀ (n : ℕ) (cfg : Config),
      cfg.maxRepairPasses - cfg.repairPass ≤ n →
      calcAux trig n s cfg = calculateLayoutMerged trig s cfg := by
  intro n
  induction n with
  | zero =>
    intro cfg h
    unfold calculateLayoutMerged
    have hb : cfg.maxRepairPasses - cfg.repairPass = 0 := Nat.le_zero.mp h
    rw [hb]
  | succ n ih =>
    intro cfg h
    unfold calculateLayoutMerged
    by_cases hc : s.components = []
    · rw [calcAux_succ]
      cases hk : cfg.maxRepairPasses - cfg.repairPass with
      | zero => rw [calcAux_zero]; simp [hc]
      | succ k => rw [calcAux_succ]; simp [hc]
    · by_cases htr : repairTriggered trig s cfg = true
      · have hlt := trigger_pass_lt htr
        have hk : cfg.maxRepairPasses - cfg.repairPass =
            (cfg.maxRepairPasses - (cfg.repairPass + 1)) + 1 := by omega
        rw [calcAux_succ, if_neg hc, if_pos htr, hk, calcAux_succ,
          if_neg hc, if_pos htr]
        have hb2 : (nextConfig cfg).maxRepairPasses -
            (nextConfig cfg).repairPass ≤ n := by
          have : (nextConfig cfg).maxRepairPasses = cfg.maxRepairPasses := rfl
          have h2 : (nextConfig cfg).repairPass = cfg.repairPass + 1 := rfl
          omega
        rw [ih (nextConfig cfg) hb2]
        unfold calculateLayoutMerged
        have : (nextConfig cfg).maxRepairPasses -
            (nextConfig cfg).repairPass =
            cfg.maxRepairPasses - (cfg.repairPass + 1) := rfl
        rw [this]
      · rw [calcAux_succ, if_neg hc, if_neg (by simpa using htr)]
        cases hk : cfg.maxRepairPasses - cfg.repairPass with
        | zero => rw [calcAux_zero, if_neg hc]
        | succ k =>
          rw [calcAux_succ, if_neg hc, if_neg (by simpa using htr)]

/-- Fuel irrelevance for the repair depth. -/
theorem repairDepth_fuel_irrel (trig : TrigOracle) (s : Scenario) :
    ∀ (n : ℕ) (cfg : Config),
      cfg.maxRepairPasses - cfg.repairPass ≤ n →
      repairDepth trig n s cfg = repairCount trig s cfg := by
  intro n
  induction n with
  | zero =>
    intro cfg h
    unfold repairCount
    have hb : cfg.maxRepairPasses - cfg.repairPass = 0 := Nat.le_zero.mp h
    rw [hb]
  | succ n ih =>
    intro cfg h
    unfold repairCount
    by_cases hc : s.components = []
    · simp [repairDepth, hc]
      cases hk : cfg.maxRepairPasses - cfg.repairPass with
      | zero => simp [repairDepth, hc]
      | succ k => simp [repairDepth, hc]
    · by_cases htr : repairTriggered trig s cfg = true
      · have hlt := trigger_pass_lt htr
        have hk : cfg.maxRepairPasses - cfg.repairPass =
            (cfg.maxRepairPasses - (cfg.repairPass + 1)) + 1 := by omega
        have hb2 : (nextConfig cfg).maxRepairPasses -
            (nextConfig cfg).repairPass ≤ n := by
          have h1 : (nextConfig cfg).maxRepairPasses = cfg.maxRepairPasses :=
            rfl
          have h2 : (nextConfig cfg).repairPass = cfg.repairPass + 1 := rfl
          omega
        have hstep : ∀ m : ℕ, repairDepth trig (m + 1) s cfg =
            repairDepth trig m s (nextConfig cfg) + 1 := by
          intro m; simp [repairDepth, hc, htr]
        rw [hk, hstep, hstep, ih (nextConfig cfg) hb2]
        unfold repairCount
        have : (nextConfig cfg).maxRepairPasses -
            (nextConfig cfg).repairPass =
            cfg.maxRepairPasses - (cfg.repairPass + 1) := rfl
        rw [this]
      · simp only [Bool.not_eq_true] at htr
        cases hk : cfg.maxRepairPasses - cfg.repairPass with
        | zero => simp [repairDepth, hc, htr]
        | succ k => simp [repairDepth, hc, htr]

/-- C4: calculateLayout terminates with a bounded repair recursion. On a
non-empty scenario it re-invokes the whole placement exactly when the
score is poor (overlaps > 0 or crossings > 2) and the pass counter is
below maxRepairPasses; the repair config disables hints.compact and
increments the pass counter; and the number of repair re-invocations never
exceeds maxRepairPasses (independently of the fuel used to express the
recursion). -/
theorem calculateLayout_repair_bounded (trig : TrigOracle) (s : Scenario)
    (o : ConfigIn) (hne : s.components ≠ []) :
    (calculateLayout trig s o =
      if repairTriggered trig s (mergeConfig o) then
        calculateLayoutMerged trig s (nextConfig (mergeConfig o))
      else .laid (passOut trig s (mergeConfig o))) ∧
    (repairTriggered trig s (mergeConfig o) = true ↔
      (((passOut trig s (mergeConfig o)).score.overlaps > 0 ∨
        (passOut trig s (mergeConfig o)).score.crossings > 2) ∧
        (mergeConfig o).repairPass < (mergeConfig o).maxRepairPasses)) ∧
    (nextConfig (mergeConfig o)).hintsCompact = false ∧
    (nextConfig (mergeConfig o)).repairPass =
      (mergeConfig o).repairPass + 1 ∧
    repairCount trig s (mergeConfig o) ≤ (mergeConfig o).maxRepairPasses ∧
    (∀ n, (mergeConfig o).maxRepairPasses - (mergeConfig o).repairPass ≤ n →
      repairDepth trig n s (mergeConfig o) =
        repairCount trig s (mergeConfig o)) := by
  set cfg := mergeConfig o with hcfg
  refine ⟨?_, ?_, rfl, rfl, ?_, ?_⟩
  · unfold calculateLayout calculateLayoutMerged
    by_cases htr : repairTriggered trig s cfg = true
    · have hlt := trigger_pass_lt htr
      have hk : cfg.maxRepairPasses - cfg.repairPass =
          (cfg.maxRepairPasses - (cfg.repairPass + 1)) + 1 := by omega
      rw [hk, calcAux_succ, if_neg hne, if_pos htr, if_pos htr]
      rfl
    · rw [if_neg (by simpa using htr)]
      cases hk : cfg.maxRepairPasses - cfg.repairPass with
      | zero => rw [calcAux_zero, if_neg hne]
      | succ k =>
        rw [calcAux_succ, if_neg hne, if_neg (by simpa using htr)]
  · simp [repairTriggered]
  · exact le_trans (repairDepth_le_fuel trig _ s cfg) (Nat.sub_le _ _)
  · intro n hn
    exact repairDepth_fuel_irrel trig s n cfg hn

/-- C4 witness: the three-box pipeline scenario on the default config. -/
theorem calculateLayout_repair_bounded_witness :
    (nextConfig (mergeConfig {})).hintsCompact = false ∧
    (nextConfig (mergeConfig {})).repairPass =
      (mergeConfig {}).repairPass + 1 ∧
    repairCount trigSimple scenarioABC (mergeConfig {}) ≤
      (mergeConfig {}).maxRepairPasses := by
  have h := calculateLayout_repair_bounded trigSimple scenarioABC {}
    (by decide)
  exact ⟨h.2.2.1, h.2.2.2.1, h.2.2.2.2.1⟩

end Animator

namespace Animator

open Layout

/-- The single-pass result reports stage bounds equal to the maximum of
the view box and the content extent plus padding, over its own placed
zones and components. -/
theorem passOut_stage (trig : TrigOracle) (s : Scenario) (cfg : Config) :
    ∃ zs : List Zone,
      (passOut trig s cfg).stageW = max cfg.viewBoxWidth
        ((contentMaxOf zs (passOut trig s cfg).components).1 + cfg.padding) ∧
      (passOut trig s cfg).stageH = max cfg.viewBoxHeight
        ((contentMaxOf zs (passOut trig s cfg).components).2 + cfg.padding) ∧
      (zs = [] ∨ (passOut trig s cfg).zones = some zs) := by
  refine ⟨(placeAll trig s cfg).2, rfl, rfl, ?_⟩
  by_cases h : (placeAll trig s cfg).2 = []
  · exact Or.inl h
  · right
    simp [passOut, h]

/-- The stage-floor property holds for every fuel and merged config,
because the repair recursion changes neither the view box nor the
padding. -/
theorem calcAux_stage (trig : TrigOracle) (s : Scenario) :
    ∀ (fuel : ℕ) (cfg : Config), s.components ≠ [] →
      ∃ out, calcAux trig fuel s cfg = .laid out ∧
      ∃ zs : List Zone,
        out.stageW = max cfg.viewBoxWidth
          ((contentMaxOf zs out.components).1 + cfg.padding) ∧
        out.stageH = max cfg.viewBoxHeight
          ((contentMaxOf zs out.components).2 + cfg.padding) ∧
        (zs = [] ∨ out.zones = some zs) := by
  intro fuel
  induction fuel with
  | zero =>
    intro cfg hne
    refine ⟨passOut trig s cfg, ?_, passOut_stage trig s cfg⟩
    rw [calcAux_zero, if_neg hne]
  | succ n ih =>
    intro cfg hne
    by_cases htr : repairTriggered trig s cfg = true
    · obtain ⟨out, hout, zs, h1, h2, h3⟩ := ih (nextConfig cfg) hne
      refine ⟨out, ?_, zs, h1, h2, h3⟩
      rw [calcAux_succ, if_neg hne, if_pos htr, hout]
    · refine ⟨passOut trig s cfg, ?_, passOut_stage trig s cfg⟩
      rw [calcAux_succ, if_neg hne, if_neg (by simpa using htr)]

/-- C10: for every non-empty scenario, the reported stage width and height
are the maximum of the configured view box dimensions and the content
extent (over the placed zones and components of the returned result) plus
padding; in particular the stage is never smaller than the configured
view box. -/
theorem stage_floor (trig : TrigOracle) (s : Scenario) (o : ConfigIn)
    (hne : s.components ≠ []) :
    ∃ out, calculateLayout trig s o = .laid out ∧
    ∃ zs : List Zone,
      out.stageW = max (mergeConfig o).viewBoxWidth
        ((contentMaxOf zs out.components).1 + (mergeConfig o).padding) ∧
      out.stageH = max (mergeConfig o).viewBoxHeight
        ((contentMaxOf zs out.components).2 + (mergeConfig o).padding) ∧
      (zs = [] ∨ out.zones = some zs) ∧
      (mergeConfig o).viewBoxWidth ≤ out.stageW ∧
      (mergeConfig o).viewBoxHeight ≤ out.stageH := by
  obtain ⟨out, hout, zs, h1, h2, h3⟩ :=
    calcAux_stage trig s
      ((mergeConfig o).maxRepairPasses - (mergeConfig o).repairPass)
      (mergeConfig o) hne
  exact ⟨out, hout, zs, h1, h2, h3,
    h1 ▸ le_max_left _ _, h2 ▸ le_max_left _ _⟩

/-- C10 witness: the one-component scenario on the default config. -/
theorem stage_floor_witness :
    ∃ out, calculateLayout trigSimple scenarioOne {} = .laid out ∧
    ∃ zs : List Zone,
      out.stageW = max (mergeConfig {}).viewBoxWidth
        ((contentMaxOf zs out.components).1 + (mergeConfig {}).padding) ∧
      out.stageH = max (mergeConfig {}).viewBoxHeight
        ((contentMaxOf zs out.components).2 + (mergeConfig {}).padding) ∧
      (zs = [] ∨ out.zones = some zs) ∧
      (mergeConfig {}).viewBoxWidth ≤ out.stageW ∧
      (mergeConfig {}).viewBoxHeight ≤ out.stageH :=
  stage_floor trigSimple scenarioOne {} (by decide)

end Animator

namespace Animator

open Layout

/-- Math.round grows past g whenever the pre-rounding value clears g by at
least one half. -/
theorem jsRound_gt {g x : ℚ} (h : g + 1 / 2 ≤ x) : g < jsRound x := by
  rw [jsRound_eq]
  have h2 : ⌊g⌋ + 1 ≤ ⌊x + 1 / 2⌋ := by
    apply Int.le_floor.mpr
    push_cast
    have := Int.floor_le g
    linarith
  calc g < (⌊g⌋ : ℚ) + 1 := Int.lt_floor_add_one g
    _ ≤ ((⌊x + 1 / 2⌋ : ℤ) : ℚ) := by exact_mod_cast h2

/-- C5 (amended): a repair pass multiplies each gap by repairGrowth and
rounds; the new gap is strictly greater than the old one whenever the
scaled value clears it by at least one half (true of the default growth
1.25 for any gap of at least 2, but false for tiny or negative gaps); and
starting from pass 0 the number of repair passes never exceeds
maxRepairPasses. -/
theorem repairGaps_growth (cfg : Config) :
    (cfg.columnGap + 1 / 2 ≤ cfg.columnGap * cfg.repairGrowth →
      cfg.columnGap < (nextConfig cfg).columnGap) ∧
    (cfg.rowGap + 1 / 2 ≤ cfg.rowGap * cfg.repairGrowth →
      cfg.rowGap < (nextConfig cfg).rowGap) ∧
    (cfg.componentGap + 1 / 2 ≤ cfg.componentGap * cfg.repairGrowth →
      cfg.componentGap < (nextConfig cfg).componentGap) ∧
    (∀ trig s, cfg.repairPass = 0 →
      repairCount trig s cfg ≤ cfg.maxRepairPasses) := by
  refine ⟨fun h => jsRound_gt h, fun h => jsRound_gt h,
    fun h => jsRound_gt h, fun trig s h0 => ?_⟩
  exact le_trans (repairDepth_le_fuel trig _ s cfg) (Nat.sub_le _ _)

/-- C5 witness: the default merged config (column gap 90, growth 1.25)
grows all three gaps strictly. -/
theorem repairGaps_growth_witness :
    (mergeConfig {}).columnGap < (nextConfig (mergeConfig {})).columnGap ∧
    (mergeConfig {}).rowGap < (nextConfig (mergeConfig {})).rowGap ∧
    (mergeConfig {}).componentGap <
      (nextConfig (mergeConfig {})).componentGap ∧
    repairCount trigSimple scenarioOne (mergeConfig {}) ≤
      (mergeConfig {}).maxRepairPasses := by
  have h := repairGaps_growth (mergeConfig {})
  exact ⟨h.1 (of_decide_eq_true (by with_unfolding_all rfl)),
    h.2.1 (of_decide_eq_true (by with_unfolding_all rfl)),
    h.2.2.1 (of_decide_eq_true (by with_unfolding_all rfl)),
    h.2.2.2 trigSimple scenarioOne (by decide)⟩

end Animator

namespace Animator

open Layout

/-- Unknown profile names miss every template entry. -/
theorem LAYOUT_TEMPLATES_of_not_known {p : String} (h : p ∉ knownProfiles) :
    LAYOUT_TEMPLATES p = none := by
  simp only [knownProfiles, List.mem_cons, List.not_mem_nil, or_false,
    not_or] at h
  obtain ⟨h1, h2, h3, h4, h5⟩ := h
  simp [LAYOUT_TEMPLATES, h1, h2, h3, h4, h5]

/-- For an unknown profile the resolved template collapses to the pipeline
gap triple, whatever the unknown name is. -/
theorem resolveTemplate_unknown (o : ConfigIn) {p : String}
    (h : p ∉ knownProfiles) :
    resolveTemplate { o with profile := some p } =
      (LAYOUT_TEMPLATES (orS o.template "pipeline")).getD
        { columnGap := 90, rowGap := 120, componentGap := 28 } := by
  unfold resolveTemplate orS
  cases ht : truthyS o.template with
  | some k => rfl
  | none =>
    by_cases hp : p = ""
    · subst hp
      simp [truthyS, LAYOUT_TEMPLATES]
    · simp only [knownProfiles, List.mem_cons, List.not_mem_nil, or_false,
        not_or] at h
      obtain ⟨n1, n2, n3, n4, n5⟩ := h
      simp [truthyS, hp, LAYOUT_TEMPLATES, n1, n2, n3, n4, n5]

/-- Two unknown profiles merge to configs differing only in the profile
field. -/
theorem mergeConfig_profile_swap (o : ConfigIn) {p1 p2 : String}
    (h1 : p1 ∉ knownProfiles) (h2 : p2 ∉ knownProfiles) :
    mergeConfig { o with profile := some p2 } =
      { mergeConfig { o with profile := some p1 } with profile := p2 } := by
  simp only [mergeConfig, resolveTemplate_unknown o h1,
    resolveTemplate_unknown o h2]
  rfl

/-- Spelling out non-membership in the known profile list. -/
theorem not_known_ne {p : String} (h : p ∉ knownProfiles) :
    p ≠ "pipeline" ∧ p ≠ "tiered" ∧ p ≠ "hub" ∧ p ≠ "fanout" ∧
      p ≠ "swimlane" := by
  simpa [knownProfiles, not_or] using h

/-- The grid fallback reads no profile field. -/
theorem gridGroup_profile_swap (s : Scenario) (cfg : Config) (p' : String)
    (cur : ℚ) (oc : List Component) (mw mh : ℚ) :
    gridGroup s { cfg with profile := p' } cur oc mw mh =
      gridGroup s cfg cur oc mw mh := rfl

/-- Group placement ignores the profile string beyond recognizing the five
known names, so two unknown profiles place identically. -/
theorem groupPlace_swap (trig : TrigOracle) (s : Scenario) (cfg : Config)
    (p' : String) (cur : ℚ) (g : Group)
    (h : cfg.profile ∉ knownProfiles) (h' : p' ∉ knownProfiles) :
    groupPlace trig s { cfg with profile := p' } cur g =
      groupPlace trig s cfg cur g := by
  obtain ⟨a1, a2, a3, a4, a5⟩ := not_known_ne h
  obtain ⟨b1, b2, b3, b4, b5⟩ := not_known_ne h'
  simp only [groupPlace, a1, a2, a3, a4, b1, b2, b3, b4, if_false]
  exact gridGroup_profile_swap s cfg p' cur _ _ _

/-- The generic group loop is profile-independent for unknown profiles. -/
theorem genericPlace_swap (trig : TrigOracle) (s : Scenario) (cfg : Config)
    (p' : String)
    (h : cfg.profile ∉ knownProfiles) (h' : p' ∉ knownProfiles) :
    genericPlace trig s { cfg with profile := p' } =
      genericPlace trig s cfg := by
  have hgp : ∀ cur g, groupPlace trig s { cfg with profile := p' } cur g =
      groupPlace trig s cfg cur g := fun cur g =>
    groupPlace_swap trig s cfg p' cur g h h'
  simp only [genericPlace, hgp]
  rfl

/-- placeAll routes unknown profiles to the grid fallback, independently of
the unknown name. -/
theorem placeAll_swap (trig : TrigOracle) (s : Scenario) (cfg : Config)
    (p' : String)
    (h : cfg.profile ∉ knownProfiles) (h' : p' ∉ knownProfiles) :
    placeAll trig s { cfg with profile := p' } = placeAll trig s cfg := by
  obtain ⟨a1, a2, a3, a4, a5⟩ := not_known_ne h
  obtain ⟨b1, b2, b3, b4, b5⟩ := not_known_ne h'
  simp only [placeAll, a3, a4, a5, b3, b4, b5, or_self, and_false, if_false]
  exact genericPlace_swap trig s cfg p' h h'

/-- Zone-driven grouping ignores the profile. -/
theorem useZonesOf_profile_swap (s : Scenario) (cfg : Config) (p' : String) :
    useZonesOf s { cfg with profile := p' } = useZonesOf s cfg := rfl

/-- The single-pass result is profile-independent for unknown profiles. -/
theorem passOut_swap (trig : TrigOracle) (s : Scenario) (cfg : Config)
    (p' : String)
    (h : cfg.profile ∉ knownProfiles) (h' : p' ∉ knownProfiles) :
    passOut trig s { cfg with profile := p' } = passOut trig s cfg := by
  simp only [passOut, placeAll_swap trig s cfg p' h h',
    useZonesOf_profile_swap]

/-- The repair trigger is profile-independent for unknown profiles. -/
theorem repairTriggered_swap (trig : TrigOracle) (s : Scenario)
    (cfg : Config) (p' : String)
    (h : cfg.profile ∉ knownProfiles) (h' : p' ∉ knownProfiles) :
    repairTriggered trig s { cfg with profile := p' } =
      repairTriggered trig s cfg := by
  simp only [repairTriggered, passOut_swap trig s cfg p' h h']

/-- The repair config commutes with replacing the profile. -/
theorem nextConfig_profile_swap (cfg : Config) (p' : String) :
    nextConfig { cfg with profile := p' } =
      { nextConfig cfg with profile := p' } := rfl

/-- The layout recursion is profile-independent for unknown profiles. -/
theorem calcAux_swap (trig : TrigOracle) (s : Scenario) :
    ∀ (fuel : ℕ) (cfg : Config) (p' : String),
      cfg.profile ∉ knownProfiles → p' ∉ knownProfiles →
      calcAux trig fuel s { cfg with profile := p' } =
        calcAux trig fuel s cfg := by
  intro fuel
  induction fuel with
  | zero =>
    intro cfg p' h h'
    rw [calcAux_zero, calcAux_zero, passOut_swap trig s cfg p' h h']
  | succ n ih =>
    intro cfg p' h h'
    rw [calcAux_succ, calcAux_succ, passOut_swap trig s cfg p' h h',
      repairTriggered_swap trig s cfg p' h h', nextConfig_profile_swap]
    by_cases hc : s.components = []
    · simp [hc]
    · by_cases htr : repairTriggered trig s cfg = true
      · have hnext : (nextConfig cfg).profile ∉ knownProfiles := h
        rw [if_neg hc, if_neg hc, if_pos htr, if_pos htr]
        exact ih (nextConfig cfg) p' hnext h'
      · simp [hc, htr]

/-- C3 (amended): an unrecognized profile name falls back to the pipeline
gap template but is placed by the grid fallback, not the pipeline
strategy; the result is the same whichever unrecognized profile string is
supplied (and, per the counterexample, differs from the pipeline
placement). -/
theorem unknownProfile_fixed_fallback (trig : TrigOracle) (s : Scenario)
    (o : ConfigIn) (p1 p2 : String)
    (h1 : p1 ∉ knownProfiles) (h2 : p2 ∉ knownProfiles) :
    calculateLayout trig s { o with profile := some p1 } =
      calculateLayout trig s { o with profile := some p2 } := by
  unfold calculateLayout calculateLayoutMerged
  rw [mergeConfig_profile_swap o h1 h2]
  have hp : (mergeConfig { o with profile := some p1 }).profile = p1 := rfl
  exact (calcAux_swap trig s _ (mergeConfig { o with profile := some p1 })
    p2 (hp ▸ h1) h2).symm

/-- C3 witness: the profiles bogus and grid give identical one-component
layouts. -/
theorem unknownProfile_fixed_fallback_witness :
    calculateLayout trigSimple scenarioOne { profile := some "bogus" } =
      calculateLayout trigSimple scenarioOne { profile := some "grid" } :=
  unknownProfile_fixed_fallback trigSimple scenarioOne {} "bogus" "grid"
    (by decide) (by decide)

end Animator

namespace Animator

open Layout

/-- A pairwise max fold only grows past its initial accumulator. -/
theorem foldl_maxPair_ge_init {α : Type} (f g : α → ℚ) :
    ∀ (l : List α) (m : ℚ × ℚ),
      m.1 ≤ (l.foldl (fun acc a => (max acc.1 (f a), max acc.2 (g a))) m).1 ∧
      m.2 ≤ (l.foldl (fun acc a => (max acc.1 (f a), max acc.2 (g a))) m).2 := by
  intro l
  induction l with
  | nil => intro m; exact ⟨le_refl _, le_refl _⟩
  | cons a t ih =>
    intro m
    refine ⟨le_trans (le_max_left _ _) (ih _).1,
      le_trans (le_max_left _ _) (ih _).2⟩

/-- A pairwise max fold dominates every member. -/
theorem foldl_maxPair_ge_mem {α : Type} (f g : α → ℚ) :
    ∀ (l : List α) (m : ℚ × ℚ) (a : α), a ∈ l →
      f a ≤ (l.foldl (fun acc x => (max acc.1 (f x), max acc.2 (g x))) m).1 ∧
      g a ≤ (l.foldl (fun acc x => (max acc.1 (f x), max acc.2 (g x))) m).2 := by
  intro l
  induction l with
  | nil => intro m a ha; cases ha
  | cons b t ih =>
    intro m a ha
    rcases List.mem_cons.mp ha with h | h
    · subst h
      exact ⟨le_trans (le_max_right _ _) (foldl_maxPair_ge_init f g t _).1,
        le_trans (le_max_right _ _) (foldl_maxPair_ge_init f g t _).2⟩
    · exact ih _ a h

/-- The per-group maximum size dominates each member size and is
non-negative. -/
theorem maxSizeOf_spec (comps : List Component) :
    (∀ c ∈ comps,
      (getComponentSizeForComponent c).1 ≤ (maxSizeOf comps).1 ∧
      (getComponentSizeForComponent c).2 ≤ (maxSizeOf comps).2) ∧
    0 ≤ (maxSizeOf comps).1 ∧ 0 ≤ (maxSizeOf comps).2 := by
  constructor
  · intro c hc
    exact foldl_maxPair_ge_mem (fun c => (getComponentSizeForComponent c).1)
      (fun c => (getComponentSizeForComponent c).2) comps (0, 0) c hc
  · exact foldl_maxPair_ge_init (fun c => (getComponentSizeForComponent c).1)
      (fun c => (getComponentSizeForComponent c).2) comps (0, 0)

/-- The content extent dominates the right and bottom edges of every
component counted in it. -/
theorem contentMaxOf_ge_comp (zs : List Zone) (comps : List Component)
    (c : Component) (hc : c ∈ comps) :
    (getBoundsFromAnchor c).x + (getBoundsFromAnchor c).width ≤
      (contentMaxOf zs comps).1 ∧
    (getBoundsFromAnchor c).y + (getBoundsFromAnchor c).height ≤
      (contentMaxOf zs comps).2 := by
  exact foldl_maxPair_ge_mem
    (fun c => (getBoundsFromAnchor c).x + (getBoundsFromAnchor c).width)
    (fun c => (getBoundsFromAnchor c).y + (getBoundsFromAnchor c).height)
    comps _ c hc

/-- Members of insertStable are the new element or old members. -/
theorem mem_insertStable {α : Type} (le : α → α → Bool) (x y : α) :
    ∀ l : List α, y ∈ insertStable le x l ↔ y = x ∨ y ∈ l := by
  intro l
  induction l with
  | nil => simp [insertStable]
  | cons b t ih =>
    show y ∈ (if le x b && !(le b x) then x :: b :: t
      else b :: insertStable le x t) ↔ _
    by_cases h : (le x b && !(le b x)) = true
    · rw [if_pos h]
      simp [List.mem_cons]
    · rw [if_neg h]
      simp only [List.mem_cons, ih]
      tauto

/-- Members of the stable sort are exactly the members of the input. -/
theorem mem_stableSort {α : Type} (le : α → α → Bool) (l : List α) (y : α) :
    y ∈ stableSort le l ↔ y ∈ l := by
  suffices h : ∀ (l : List α) (acc : List α),
      y ∈ l.foldl (fun acc x => insertStable le x acc) acc ↔
      y ∈ acc ∨ y ∈ l by
    have := h l []
    simpa [stableSort] using this
  intro l
  induction l with
  | nil => simp
  | cons b t ih =>
    intro acc
    rw [List.foldl_cons, ih, mem_insertStable]
    simp [List.mem_cons]
    tauto

/-- Second components of enumFrom members belong to the list. -/
theorem snd_mem_of_mem_enumFrom {α : Type} :
    ∀ (l : List α) (n : ℕ) (p : ℕ × α), p ∈ l.enumFrom n → p.2 ∈ l := by
  intro l
  induction l with
  | nil => intro n p hp; cases hp
  | cons a t ih =>
    intro n p hp
    rcases List.mem_cons.mp hp with h | h
    · subst h; exact List.mem_cons_self _ _
    · exact List.mem_cons_of_mem _ (ih (n + 1) p h)

/-- Second components of enum members belong to the list. -/
theorem snd_mem_of_mem_enum {α : Type} (l : List α) (p : ℕ × α)
    (hp : p ∈ l.enum) : p.2 ∈ l :=
  snd_mem_of_mem_enumFrom l 0 p hp

/-- Membership in a mapped enumeration yields an index and a list member. -/
theorem mem_enum_map {α β : Type} (f : ℕ × α → β) (l : List α) (b : β)
    (hb : b ∈ l.enum.map f) : ∃ i a, a ∈ l ∧ b = f (i, a) := by
  obtain ⟨p, hp, he⟩ := List.mem_map.mp hb
  exact ⟨p.1, p.2, snd_mem_of_mem_enum l p hp, by rw [← he]⟩

/-- A found value belongs to the value list of the association list. -/
theorem jsMapFind_mem_values {β : Type} (m : List (String × β)) (k : String)
    (v : β) (h : jsMapFind m k = some v) : v ∈ m.map (·.2) := by
  unfold jsMapFind at h
  obtain ⟨p, hp, hv⟩ := Option.map_eq_some'.mp h
  exact hv ▸ List.mem_map.mpr ⟨p, List.mem_of_find?_eq_some hp, rfl⟩

/-- Setting a key makes it present. -/
theorem jsMapHas_set_self {β : Type} (m : List (String × β)) (k : String)
    (v : β) : jsMapHas (jsMapSet m k v) k = true := by
  unfold jsMapHas jsMapSet
  by_cases h : m.any fun p => p.1 = k
  · rw [if_pos h]
    rw [List.any_eq_true] at h ⊢
    obtain ⟨p, hp, he⟩ := h
    have hk : p.1 = k := of_decide_eq_true he
    refine ⟨(k, v), List.mem_map.mpr ⟨p, hp, ?_⟩, by simp⟩
    simp [hk]
  · rw [if_neg h]
    simp

/-- Setting one key preserves the presence of any key. -/
theorem jsMapHas_set_mono {β : Type} (m : List (String × β)) (k k2 : String)
    (v : β) (h : jsMapHas m k = true) :
    jsMapHas (jsMapSet m k2 v) k = true := by
  unfold jsMapHas jsMapSet
  unfold jsMapHas at h
  rw [List.any_eq_true] at h
  obtain ⟨p, hp, he⟩ := h
  have hk : p.1 = k := of_decide_eq_true he
  by_cases h2 : m.any fun p => p.1 = k2
  · rw [if_pos h2, List.any_eq_true]
    by_cases hpk : p.1 = k2
    · refine ⟨(k2, v), List.mem_map.mpr ⟨p, hp, ?_⟩, ?_⟩
      · simp [hpk]
      · simp [← hk, hpk]
    · refine ⟨p, List.mem_map.mpr ⟨p, hp, ?_⟩, he⟩
      simp [hpk]
  · rw [if_neg h2, List.any_eq_true]
    exact ⟨p, List.mem_append_left _ hp, he⟩

/-- A present key is found. -/
theorem jsMapFind_of_has {β : Type} (m : List (String × β)) (k : String)
    (h : jsMapHas m k = true) : ∃ v, jsMapFind m k = some v := by
  unfold jsMapHas at h
  unfold jsMapFind
  rw [List.any_eq_true] at h
  obtain ⟨p, hp, he⟩ := h
  have hsome : (m.find? fun p => p.1 = k).isSome := by
    rw [List.find?_isSome]
    exact ⟨p, hp, he⟩
  obtain ⟨q, hq⟩ := Option.isSome_iff_exists.mp hsome
  exact ⟨q.2, by rw [hq]; rfl⟩

/-- The integer list minimum is at most every member. -/
theorem listMinI_le (l : List ℤ) (v : ℤ) (hv : v ∈ l) : listMinI l ≤ v := by
  have key : ∀ (t : List ℤ) (init : ℤ),
      t.foldl min init ≤ init ∧ ∀ w ∈ t, t.foldl min init ≤ w := by
    intro t
    induction t with
    | nil => intro init; exact ⟨le_refl _, by intro w hw; cases hw⟩
    | cons a r ih =>
      intro init
      refine ⟨le_trans (ih (min init a)).1 (min_le_left _ _), ?_⟩
      intro w hw
      rcases List.mem_cons.mp hw with h | h
      · rw [h]; exact le_trans (ih (min init a)).1 (min_le_right _ _)
      · exact (ih (min init a)).2 w h
  cases l with
  | nil => cases hv
  | cons hd t =>
    rcases List.mem_cons.mp hv with h2 | h2
    · rw [h2]; exact (key t hd).1
    · exact (key t hd).2 v h2

end Animator

namespace Animator

open Layout

/-- The integer list maximum is at least every member. -/
theorem listMaxI_ge (l : List ℤ) (v : ℤ) (hv : v ∈ l) : v ≤ listMaxI l := by
  have key : ∀ (t : List ℤ) (init : ℤ),
      init ≤ t.foldl max init ∧ ∀ w ∈ t, w ≤ t.foldl max init := by
    intro t
    induction t with
    | nil => intro init; exact ⟨le_refl _, by intro w hw; cases hw⟩
    | cons a r ih =>
      intro init
      refine ⟨le_trans (le_max_left _ _) (ih (max init a)).1, ?_⟩
      intro w hw
      rcases List.mem_cons.mp hw with h | h
      · rw [h]; exact le_trans (le_max_right _ _) (ih (max init a)).1
      · exact (ih (max init a)).2 w h
  cases l with
  | nil => cases hv
  | cons hd t =>
    rcases List.mem_cons.mp hv with h2 | h2
    · rw [h2]; exact (key t hd).1
    · exact (key t hd).2 v h2

/-- The integer list minimum never exceeds the maximum. -/
theorem listMinI_le_listMaxI (l : List ℤ) : listMinI l ≤ listMaxI l := by
  cases l with
  | nil => exact le_refl 0
  | cons hd t =>
    exact le_trans (listMinI_le (hd :: t) hd (List.mem_cons_self _ _))
      (listMaxI_ge (hd :: t) hd (List.mem_cons_self _ _))

/-- Math.round of a non-negative value is non-negative. -/
theorem jsRound_nonneg {x : ℚ} (h : 0 ≤ x) : 0 ≤ jsRound x := by
  rw [jsRound_eq]
  have : (0 : ℤ) ≤ ⌊x + 1 / 2⌋ := by
    apply Int.le_floor.mpr
    push_cast
    linarith
  exact_mod_cast this

/-- All three gaps used by a branch are non-negative on a non-negative
config. -/
theorem gapsUsed_nonneg (cfg : Config) (e1 e2 : ℚ) (tb : Bool)
    (h : ConfigNonneg cfg) :
    0 ≤ (gapsUsed cfg e1 e2 tb).columnGap ∧
    0 ≤ (gapsUsed cfg e1 e2 tb).rowGap ∧
    0 ≤ (gapsUsed cfg e1 e2 tb).componentGap := by
  obtain ⟨-, -, -, hcg, hrg, hcompg, hminc, hminr, hmincomp, -⟩ := h
  unfold gapsUsed
  by_cases hc : cfg.hintsCompact
  · rw [if_pos hc]
    unfold getCompactedGaps
    exact ⟨le_trans hminc (le_max_left _ _), le_trans hminr (le_max_left _ _),
      le_trans hmincomp (le_max_left _ _)⟩
  · rw [if_neg hc]
    exact ⟨hcg, hrg, hcompg⟩

/-- The repair config of a non-negative config is non-negative. -/
theorem ConfigNonneg_nextConfig {cfg : Config} (h : ConfigNonneg cfg) :
    ConfigNonneg (nextConfig cfg) := by
  obtain ⟨hsx, hsy, hpad, hcg, hrg, hcompg, hminc, hminr, hmincomp,
    hzg, hzp, hzl, hgrow⟩ := h
  exact ⟨hsx, hsy, hpad, jsRound_nonneg (mul_nonneg hcg hgrow),
    jsRound_nonneg (mul_nonneg hrg hgrow),
    jsRound_nonneg (mul_nonneg hcompg hgrow),
    hminc, hminr, hmincomp, hzg, hzp, hzl, hgrow⟩

/-- The bounds of a pushed component: the placement center shifted left and
up by half its size, whatever the anchor semantics of its type. -/
theorem bounds_placedComponent (c : Component) (cx cy : ℚ) :
    getBoundsFromAnchor (placedComponent c cx cy) =
      { x := cx - jsDiv (getComponentSizeForComponent c).1 2,
        y := cy - jsDiv (getComponentSizeForComponent c).2 2,
        width := (getComponentSizeForComponent c).1,
        height := (getComponentSizeForComponent c).2 } := by
  unfold placedComponent getBoundsFromAnchor centerToAnchor
  by_cases h : (orS c.type "rectangle") ∈ CENTERED_TYPES
  · simp only [h, if_true, if_pos h]
    rfl
  · simp only [h, if_false, if_neg h]
    rfl

/-- Looking up a present key and defaulting cannot go below the value-list
minimum. -/
theorem row_ge_minRow (m : List (String × ℤ)) (k : String)
    (h : jsMapHas m k = true) :
    listMinI (m.map (·.2)) ≤ ((jsMapFind m k).getD 0) := by
  obtain ⟨v, hv⟩ := jsMapFind_of_has m k h
  rw [hv]
  exact listMinI_le _ v (jsMapFind_mem_values m k v hv)

/-- Every component processed by the pipeline row assignment gets a row. -/
theorem pipelineRowsOf_has (primary : List String)
    (pm : List (String × String)) (comps : List Component) :
    ∀ c ∈ comps, jsMapHas (pipelineRowsOf primary pm comps) c.id = true := by
  suffices h : ∀ (l : List Component)
      (st : List (String × ℤ) × List (String × ℕ) × ℕ),
      (∀ k, jsMapHas st.1 k = true →
        jsMapHas (l.foldl (fun st comp =>
          if primary.contains comp.id then
            (jsMapSet st.1 comp.id 0, st.2.1, st.2.2)
          else
            match truthyS (jsMapFind pm comp.id) with
            | some parent =>
              let count := (jsMapFind st.2.1 parent).getD 0
              let step : ℤ := ((count / 2 : ℕ) : ℤ) + 1
              let row : ℤ := if count % 2 = 0 then step else -step
              (jsMapSet st.1 comp.id row, jsMapSet st.2.1 parent (count + 1),
               st.2.2)
            | none =>
              let count := st.2.2
              let step : ℤ := ((count / 2 : ℕ) : ℤ) + 1
              let row : ℤ := if count % 2 = 0 then step else -step
              (jsMapSet st.1 comp.id row, st.2.1, st.2.2 + 1)) st).1 k =
          true) ∧
      (∀ c ∈ l, jsMapHas (l.foldl (fun st comp =>
          if primary.contains comp.id then
            (jsMapSet st.1 comp.id 0, st.2.1, st.2.2)
          else
            match truthyS (jsMapFind pm comp.id) with
            | some parent =>
              let count := (jsMapFind st.2.1 parent).getD 0
              let step : ℤ := ((count / 2 : ℕ) : ℤ) + 1
              let row : ℤ := if count % 2 = 0 then step else -step
              (jsMapSet st.1 comp.id row, jsMapSet st.2.1 parent (count + 1),
               st.2.2)
            | none =>
              let count := st.2.2
              let step : ℤ := ((count / 2 : ℕ) : ℤ) + 1
              let row : ℤ := if count % 2 = 0 then step else -step
              (jsMapSet st.1 comp.id row, st.2.1, st.2.2 + 1)) st).1 c.id =
          true) by
    intro c hc
    exact (h comps ([], [], 0)).2 c hc
  intro l
  induction l with
  | nil => intro st; exact ⟨fun k hk => hk, by intro c hc; cases hc⟩
  | cons b t ih =>
    intro st
    constructor
    · intro k hk
      rw [List.foldl_cons]
      apply (ih _).1 k
      by_cases hb : primary.contains b.id
      · simp only [hb, if_true]
        exact jsMapHas_set_mono _ _ _ _ hk
      · simp only [hb, if_false]
        cases hpm : truthyS (jsMapFind pm b.id) with
        | some parent => exact jsMapHas_set_mono _ _ _ _ hk
        | none => exact jsMapHas_set_mono _ _ _ _ hk
    · intro c hc
      rw [List.foldl_cons]
      rcases List.mem_cons.mp hc with h | h
      · rw [h]
        apply (ih _).1 b.id
        by_cases hb : primary.contains b.id
        · simp only [hb, if_true]
          exact jsMapHas_set_self _ _ _
        · simp only [hb, if_false]
          cases hpm : truthyS (jsMapFind pm b.id) with
          | some parent => exact jsMapHas_set_self _ _ _
          | none => exact jsMapHas_set_self _ _ _
      · exact (ih _).2 c h

end Animator
